import Mathlib

/-!
Verification development for the mcp-sol RPC tool bridge (src/server.py).

Each MCP tool in server.py has the shape

  async with AsyncClient(rpc_url) as client:
      <decode arguments via solders>      -- may raise locally
      <one await client.<method>(...)>    -- the single remote call
      return f"<Label>: {payload}"

We embed every tool as a pure function from an abstract remote-node
oracle and the tool arguments to an invocation record: the trace of
session and network events the invocation performs, and its result
(a returned string or a raised error).  Argument decoding (solders
Pubkey.from_string, Signature.from_string, u64 conversion, the
solana-py account-encoding table) is modelled from the documented
behaviour of those library functions, since the repository calls into
them; everything else is a direct translation of server.py.
-/

namespace McpSol

set_option maxRecDepth 40000

/-- Alphabet used by bs58 decoding in solders (Bitcoin base-58 order). -/
def base58Alphabet : List Char :=
  "123456789ABCDEFGHJKLMNPQRSTUVWXYZabcdefghijkmnopqrstuvwxyz".toList

/-- Value of one base-58 digit, if the character is in the alphabet. -/
def base58DigitVal (c : Char) : Option Nat :=
  base58Alphabet.findIdx? (fun d => d = c)

/-- Numeric value of a base-58 digit string, failing on any character
outside the alphabet. -/
def base58DecodeNum (cs : List Char) : Option Nat :=
  cs.foldl
    (fun acc c =>
      match acc, base58DigitVal c with
      | some a, some d => some (a * 58 + d)
      | _, _ => none)
    (some 0)

/-- Little-endian base-256 digits of a number, with explicit fuel so the
definition is structural and reduces in the kernel.  With fuel at least
the length of the base-58 digit string the result is exact, because a
number below 58 to the k is below 256 to the k. -/
def natToBytesLE (fuel : Nat) (n : Nat) : List Nat :=
  match fuel with
  | 0 => []
  | fuel + 1 => if n = 0 then [] else n % 256 :: natToBytesLE fuel (n / 256)

/-- Base-58 decoding to raw bytes, as bs58 does it: leading alphabet
zeros become leading zero bytes, the remainder is the minimal big-endian
byte expansion of the digit value. -/
def base58Decode (s : String) : Option (List Nat) :=
  match base58DecodeNum s.toList with
  | none => none
  | some n =>
      let z := (s.toList.takeWhile (fun c => c = '1')).length
      some (List.replicate z 0 ++ (natToBytesLE s.length n).reverse)

/-- Errors an invocation can raise.  These model the Python exceptions
that escape a tool body: solders decode failures, u64 conversion
overflow, the solana-py encoding-table KeyError, transport failures,
remote-reported RPC failures, and task cancellation.  No constructor
carries a parameter name, because none of the underlying raise sites
receives one. -/
inductive BridgeError
  | decodeError (input : String)
  | overflowError (v : Int)
  | keyError (k : String)
  | transportError
  | remoteError
  | cancelled
deriving DecidableEq, Repr

/-- Models solders Pubkey.from_string: reject strings longer than 44
characters, base-58 decode, and require exactly 32 raw bytes. -/
def Pubkey.fromString (s : String) : Except BridgeError (List Nat) :=
  if s.length > 44 then .error (.decodeError s)
  else
    match base58Decode s with
    | none => .error (.decodeError s)
    | some bs => if bs.length = 32 then .ok bs else .error (.decodeError s)

/-- Models solders Signature.from_string: reject strings longer than 88
characters, base-58 decode, and require exactly 64 raw bytes. -/
def Signature.fromString (s : String) : Except BridgeError (List Nat) :=
  if s.length > 88 then .error (.decodeError s)
  else
    match base58Decode s with
    | none => .error (.decodeError s)
    | some bs => if bs.length = 64 then .ok bs else .error (.decodeError s)

/-- Models conversion of an unbounded Python int to a u64 field of a
solders request object: raises OverflowError locally when the value is
negative or at least 2 to the 64. -/
def toU64 (v : Int) : Except BridgeError Nat :=
  if 0 ≤ v ∧ v < 2 ^ 64 then .ok v.toNat else .error (.overflowError v)

/-- Optional u64 conversion: an absent value stays absent and is never
converted. -/
def optToU64 : Option Int → Except BridgeError (Option Nat)
  | Option.none => .ok Option.none
  | some v => (toU64 v).map some

/-- Decode a list of strings left to right, stopping at the first
failure, as the Python list comprehensions in server.py do. -/
def mapDecode (f : String → Except BridgeError (List Nat)) :
    List String → Except BridgeError (List (List Nat))
  | [] => .ok []
  | s :: rest =>
      match f s with
      | .error e => .error e
      | .ok b =>
          match mapDecode f rest with
          | .error e => .error e
          | .ok bs => .ok (b :: bs)

/-- Rendered Python value interpolated into an f-string: None, an int,
a str, or an arbitrary response object rendered by its repr. -/
inductive PyVal
  | noneVal
  | int (n : Int)
  | str (s : String)
  | obj (r : String)
deriving DecidableEq, Repr

/-- Python str() of a value, as an f-string applies it. -/
def pyStr : PyVal → String
  | .noneVal => "None"
  | .int n => toString n
  | .str s => s
  | .obj r => r

/-- One account slot of a solders instruction. -/
structure AccountMeta where
  pubkey : List Nat
  isSigner : Bool
  isWritable : Bool
deriving DecidableEq, Repr

/-- A solders instruction: program id, account metas, raw data. -/
structure Instruction where
  programId : List Nat
  accounts : List AccountMeta
  data : List Nat
deriving DecidableEq, Repr

/-- A solders message, abstracted to the instruction list it was built
from. -/
structure SolMessage where
  instructions : List Instruction
deriving DecidableEq, Repr

/-- Little-endian 4-byte encoding. -/
def u32le (n : Nat) : List Nat := (List.range 4).map (fun i => n / 256 ^ i % 256)

/-- Little-endian 8-byte encoding. -/
def u64le (n : Nat) : List Nat := (List.range 8).map (fun i => n / 256 ^ i % 256)

/-- The system program id: 32 zero bytes. -/
def systemProgramId : List Nat := List.replicate 32 0

/-- Models solders system_program.transfer(TransferParams(...)): one
instruction on the system program, funder writable signer, recipient
writable, data = u32le instruction tag 2 followed by u64le lamports. -/
def transferInstruction (fromPk toPk : List Nat) (lamports : Nat) : Instruction :=
  { programId := systemProgramId
    accounts := [⟨fromPk, true, true⟩, ⟨toPk, false, true⟩]
    data := u32le 2 ++ u64le lamports }

/-- A wire argument of the single remote call an operation makes. -/
inductive WireArg
  | pubkey (bytes : List Nat)
  | signature (bytes : List Nat)
  | nat (n : Nat)
  | optNat (v : Option Nat)
  | optSig (v : Option (List Nat))
  | str (s : String)
  | optStr (v : Option String)
  | pubkeyList (xs : List (List Nat))
  | sigList (xs : List (List Nat))
  | rawBytes (bs : List Nat)
  | msg (m : SolMessage)
deriving DecidableEq, Repr

/-- Observable event of one invocation: the session acquisition done by
entering the async-with block, a network round trip, and the session
release done by leaving the async-with block on any path. -/
inductive Event
  | sessionAcquire
  | netCall (method : String) (args : List WireArg)
  | sessionRelease
deriving DecidableEq, Repr

def isAcquire : Event → Bool
  | .sessionAcquire => true
  | _ => false

def isRelease : Event → Bool
  | .sessionRelease => true
  | _ => false

/-- Outcome the remote node (plus transport) produces for one call:
a payload, a well-formed RPC error, a transport failure, or caller
cancellation arriving while the call is in flight. -/
inductive RemoteOutcome
  | ok (v : PyVal)
  | remoteErr
  | transportErr
  | cancelled

/-- Abstract remote node: outcome of a method call on given wire
arguments. -/
def Oracle : Type := String → List WireArg → RemoteOutcome

/-- What a tool body does inside the async-with block: the network
calls it performs, and the value it returns or the error it raises. -/
structure BodyOut where
  calls : List (String × List WireArg)
  result : Except BridgeError String

/-- Result of one whole invocation: its event trace and its result. -/
structure InvocationResult where
  trace : List Event
  result : Except BridgeError String
deriving Repr

/-- Semantics of the async-with AsyncClient block of every tool: the
session is acquired first, the body runs, and the release runs on every
exit path, including a body that raises and a body cancelled mid-call,
exactly as the Python context manager guarantees. -/
def withSession (b : BodyOut) : InvocationResult :=
  { trace := (Event.sessionAcquire :: b.calls.map (fun c => Event.netCall c.1 c.2))
      ++ [Event.sessionRelease]
    result := b.result }

/-- Body that raises before performing any network call. -/
def failBody (e : BridgeError) : BodyOut := { calls := [], result := .error e }

/-- Body performing the single remote call of an operation and
rendering the payload through the f-string of the tool. -/
def remoteCall (o : Oracle) (method : String) (args : List WireArg)
    (render : PyVal → String) : BodyOut :=
  { calls := [(method, args)]
    result :=
      match o method args with
      | .ok v => .ok (render v)
      | .remoteErr => .error .remoteError
      | .transportErr => .error .transportError
      | .cancelled => .error .cancelled }

/-- Translation of get_balance (server.py:15). -/
def get_balance (o : Oracle) (address : String) : InvocationResult :=
  withSession <|
    match Pubkey.fromString address with
    | .error e => failBody e
    | .ok pk =>
        remoteCall o "get_balance" [.pubkey pk]
          (fun v => "Balance of " ++ address ++ ": " ++ pyStr v)

/-- Translation of get_transaction (server.py:30). -/
def get_transaction (o : Oracle) (hash : String) : InvocationResult :=
  withSession <|
    match Signature.fromString hash with
    | .error e => failBody e
    | .ok sg =>
        remoteCall o "get_transaction" [.signature sg]
          (fun v => "Transaction: " ++ pyStr v)

/-- Translation of get_block (server.py:45); the slot is converted to a
u64 by the solders request constructor before the round trip. -/
def get_block (o : Oracle) (slot : Int) : InvocationResult :=
  withSession <|
    match toU64 slot with
    | .error e => failBody e
    | .ok n => remoteCall o "get_block" [.nat n] (fun v => "Block: " ++ pyStr v)

/-- Translation of get_block_height (server.py:60). -/
def get_block_height (o : Oracle) : InvocationResult :=
  withSession <|
    remoteCall o "get_block_height" [] (fun v => "Block height: " ++ pyStr v)

/-- Translation of get_block_time (server.py:72). -/
def get_block_time (o : Oracle) (slot : Int) : InvocationResult :=
  withSession <|
    match toU64 slot with
    | .error e => failBody e
    | .ok n =>
        remoteCall o "get_block_time" [.nat n] (fun v => "Block time: " ++ pyStr v)

/-- Translation of get_blocks (server.py:87): end_slot defaults to None
and is forwarded unchanged when absent. -/
def get_blocks (o : Oracle) (start_slot : Int) (end_slot : Option Int) :
    InvocationResult :=
  withSession <|
    match toU64 start_slot with
    | .error e => failBody e
    | .ok s =>
        match optToU64 end_slot with
        | .error e => failBody e
        | .ok en =>
            remoteCall o "get_blocks" [.nat s, .optNat en]
              (fun v => "Blocks: " ++ pyStr v)

/-- Translation of get_cluster_nodes (server.py:103). -/
def get_cluster_nodes (o : Oracle) : InvocationResult :=
  withSession <|
    remoteCall o "get_cluster_nodes" [] (fun v => "Cluster nodes: " ++ pyStr v)

/-- Translation of get_epoch_info (server.py:115). -/
def get_epoch_info (o : Oracle) : InvocationResult :=
  withSession <|
    remoteCall o "get_epoch_info" [] (fun v => "Epoch info: " ++ pyStr v)

/-- Translation of get_epoch_schedule (server.py:127). -/
def get_epoch_schedule (o : Oracle) : InvocationResult :=
  withSession <|
    remoteCall o "get_epoch_schedule" [] (fun v => "Epoch schedule: " ++ pyStr v)

/-- Translation of get_genesis_hash (server.py:139). -/
def get_genesis_hash (o : Oracle) : InvocationResult :=
  withSession <|
    remoteCall o "get_genesis_hash" [] (fun v => "Genesis hash: " ++ pyStr v)

/-- Translation of get_identity (server.py:151). -/
def get_identity (o : Oracle) : InvocationResult :=
  withSession <|
    remoteCall o "get_identity" [] (fun v => "Node identity: " ++ pyStr v)

/-- Translation of get_inflation_governor (server.py:163). -/
def get_inflation_governor (o : Oracle) : InvocationResult :=
  withSession <|
    remoteCall o "get_inflation_governor" []
      (fun v => "Inflation governor: " ++ pyStr v)

/-- Translation of get_inflation_rate (server.py:175). -/
def get_inflation_rate (o : Oracle) : InvocationResult :=
  withSession <|
    remoteCall o "get_inflation_rate" [] (fun v => "Inflation rate: " ++ pyStr v)

/-- Translation of get_largest_accounts (server.py:187). -/
def get_largest_accounts (o : Oracle) : InvocationResult :=
  withSession <|
    remoteCall o "get_largest_accounts" []
      (fun v => "Largest accounts: " ++ pyStr v)

/-- Translation of get_latest_blockhash (server.py:199). -/
def get_latest_blockhash (o : Oracle) : InvocationResult :=
  withSession <|
    remoteCall o "get_latest_blockhash" []
      (fun v => "Latest blockhash: " ++ pyStr v)

/-- Translation of get_minimum_balance_for_rent_exemption (server.py:211). -/
def get_minimum_balance_for_rent_exemption (o : Oracle) (size : Int) :
    InvocationResult :=
  withSession <|
    match toU64 size with
    | .error e => failBody e
    | .ok n =>
        remoteCall o "get_minimum_balance_for_rent_exemption" [.nat n]
          (fun v => "Minimum balance for rent exemption: " ++ pyStr v)

/-- Translation of get_program_accounts (server.py:226). -/
def get_program_accounts (o : Oracle) (program_id : String) : InvocationResult :=
  withSession <|
    match Pubkey.fromString program_id with
    | .error e => failBody e
    | .ok pk =>
        remoteCall o "get_program_accounts" [.pubkey pk]
          (fun v => "Program accounts: " ++ pyStr v)

/-- Translation of get_recent_performance_samples (server.py:241): limit
defaults to None and is forwarded unchanged when absent. -/
def get_recent_performance_samples (o : Oracle) (limit : Option Int) :
    InvocationResult :=
  withSession <|
    match optToU64 limit with
    | .error e => failBody e
    | .ok l =>
        remoteCall o "get_recent_performance_samples" [.optNat l]
          (fun v => "Performance samples: " ++ pyStr v)

/-- Translation of get_signature_statuses (server.py:256): the list
comprehension decodes every entry, left to right, before the single
remote call. -/
def get_signature_statuses (o : Oracle) (signatures : List String) :
    InvocationResult :=
  withSession <|
    match mapDecode Signature.fromString signatures with
    | .error e => failBody e
    | .ok sgs =>
        remoteCall o "get_signature_statuses" [.sigList sgs]
          (fun v => "Signature statuses: " ++ pyStr v)

/-- Translation of get_slot (server.py:272). -/
def get_slot (o : Oracle) : InvocationResult :=
  withSession <|
    remoteCall o "get_slot" [] (fun v => "Current slot: " ++ pyStr v)

/-- Translation of get_slot_leader (server.py:284). -/
def get_slot_leader (o : Oracle) : InvocationResult :=
  withSession <|
    remoteCall o "get_slot_leader" [] (fun v => "Slot leader: " ++ pyStr v)

/-- Translation of get_supply (server.py:296). -/
def get_supply (o : Oracle) : InvocationResult :=
  withSession <|
    remoteCall o "get_supply" [] (fun v => "Supply info: " ++ pyStr v)

/-- Translation of get_token_account_balance (server.py:308). -/
def get_token_account_balance (o : Oracle) (token_account : String) :
    InvocationResult :=
  withSession <|
    match Pubkey.fromString token_account with
    | .error e => failBody e
    | .ok pk =>
        remoteCall o "get_token_account_balance" [.pubkey pk]
          (fun v => "Token account balance: " ++ pyStr v)

/-- Translation of get_token_largest_accounts (server.py:325). -/
def get_token_largest_accounts (o : Oracle) (mint : String) : InvocationResult :=
  withSession <|
    match Pubkey.fromString mint with
    | .error e => failBody e
    | .ok pk =>
        remoteCall o "get_token_largest_accounts" [.pubkey pk]
          (fun v => "Largest token accounts: " ++ pyStr v)

/-- Translation of get_transaction_count (server.py:340). -/
def get_transaction_count (o : Oracle) : InvocationResult :=
  withSession <|
    remoteCall o "get_transaction_count" []
      (fun v => "Transaction count: " ++ pyStr v)

/-- Translation of get_version (server.py:352). -/
def get_version (o : Oracle) : InvocationResult :=
  withSession <|
    remoteCall o "get_version" [] (fun v => "Version info: " ++ pyStr v)

/-- Translation of get_vote_accounts (server.py:364). -/
def get_vote_accounts (o : Oracle) : InvocationResult :=
  withSession <|
    remoteCall o "get_vote_accounts" [] (fun v => "Vote accounts: " ++ pyStr v)

/-- Translation of is_connected (server.py:376); the health check is
itself one network round trip. -/
def is_connected (o : Oracle) : InvocationResult :=
  withSession <|
    remoteCall o "is_connected" [] (fun v => "Connected: " ++ pyStr v)

/-- Translation of get_block_commitment (server.py:388). -/
def get_block_commitment (o : Oracle) (slot : Int) : InvocationResult :=
  withSession <|
    match toU64 slot with
    | .error e => failBody e
    | .ok n =>
        remoteCall o "get_block_commitment" [.nat n]
          (fun v => "Block commitment: " ++ pyStr v)

/-- Conditional expression of confirm_transaction (server.py:417):
Commitment(commitment) if commitment else None.  A supplied empty
string is falsy in Python, so it maps to None like an omitted value;
Commitment is a plain str subclass and performs no validation. -/
def optCommitmentArg : Option String → Option String
  | Option.none => Option.none
  | some s => if s = "" then Option.none else some s

/-- Translation of confirm_transaction (server.py:403). -/
def confirm_transaction (o : Oracle) (tx_sig : String)
    (commitment : Option String) : InvocationResult :=
  withSession <|
    match Signature.fromString tx_sig with
    | .error e => failBody e
    | .ok sg =>
        remoteCall o "confirm_transaction"
          [.signature sg, .optStr (optCommitmentArg commitment)]
          (fun v => "Transaction confirmation: " ++ pyStr v)

/-- Models the solana-py account-encoding table used by
get_account_info and get_multiple_accounts: a dict indexing with the
raw encoding string whose keys are base58, base64, base64+zstd and
jsonParsed; any other string raises KeyError locally, before the
request is built or sent. -/
def accountEncodingLookup (e : String) : Except BridgeError String :=
  if e = "base58" ∨ e = "base64" ∨ e = "base64+zstd" ∨ e = "jsonParsed" then
    .ok e
  else
    .error (.keyError e)

/-- Translation of get_account_info (server.py:422): the pubkey is
decoded at the call site, then solana-py resolves the encoding through
its table before performing the round trip. -/
def get_account_info (o : Oracle) (pubkey : String) (encoding : String) :
    InvocationResult :=
  withSession <|
    match Pubkey.fromString pubkey with
    | .error e => failBody e
    | .ok pk =>
        match accountEncodingLookup encoding with
        | .error e => failBody e
        | .ok enc =>
            remoteCall o "get_account_info" [.pubkey pk, .str enc]
              (fun v => "Account info: " ++ pyStr v)

/-- Translation of get_fee_for_message (server.py:441): both pubkeys
are decoded, the lamports value becomes a u64 in TransferParams, and
the message holding the single transfer instruction is sent for fee
estimation. -/
def get_fee_for_message (o : Oracle) (from_pubkey to_pubkey : String)
    (lamports : Int) : InvocationResult :=
  withSession <|
    match Pubkey.fromString from_pubkey with
    | .error e => failBody e
    | .ok fpk =>
        match Pubkey.fromString to_pubkey with
        | .error e => failBody e
        | .ok tpk =>
            match toU64 lamports with
            | .error e => failBody e
            | .ok lam =>
                remoteCall o "get_fee_for_message"
                  [.msg ⟨[transferInstruction fpk tpk lam]⟩]
                  (fun v => "Message fee: " ++ pyStr v)

/-- Translation of get_first_available_block (server.py:468). -/
def get_first_available_block (o : Oracle) : InvocationResult :=
  withSession <|
    remoteCall o "get_first_available_block" []
      (fun v => "First available block: " ++ pyStr v)

/-- Translation of get_inflation_reward (server.py:480). -/
def get_inflation_reward (o : Oracle) (pubkeys : List String)
    (epoch : Option Int) : InvocationResult :=
  withSession <|
    match mapDecode Pubkey.fromString pubkeys with
    | .error e => failBody e
    | .ok pks =>
        match optToU64 epoch with
        | .error e => failBody e
        | .ok ep =>
            remoteCall o "get_inflation_reward" [.pubkeyList pks, .optNat ep]
              (fun v => "Inflation rewards: " ++ pyStr v)

/-- Translation of get_leader_schedule (server.py:497): epoch defaults
to None and is forwarded unchanged when absent. -/
def get_leader_schedule (o : Oracle) (epoch : Option Int) : InvocationResult :=
  withSession <|
    match optToU64 epoch with
    | .error e => failBody e
    | .ok ep =>
        remoteCall o "get_leader_schedule" [.optNat ep]
          (fun v => "Leader schedule: " ++ pyStr v)

/-- Translation of get_minimum_ledger_slot (server.py:512). -/
def get_minimum_ledger_slot (o : Oracle) : InvocationResult :=
  withSession <|
    remoteCall o "minimum_ledger_slot" []
      (fun v => "Minimum ledger slot: " ++ pyStr v)

/-- Translation of get_multiple_accounts (server.py:524). -/
def get_multiple_accounts (o : Oracle) (pubkeys : List String)
    (encoding : String) : InvocationResult :=
  withSession <|
    match mapDecode Pubkey.fromString pubkeys with
    | .error e => failBody e
    | .ok pks =>
        match accountEncodingLookup encoding with
        | .error e => failBody e
        | .ok enc =>
            remoteCall o "get_multiple_accounts" [.pubkeyList pks, .str enc]
              (fun v => "Multiple accounts info: " ++ pyStr v)

/-- Conditional expression of get_signatures_for_address
(server.py:562): Signature.from_string(x) if x else None.  A supplied
empty string is falsy, so it is never decoded and maps to None. -/
def optSigArg : Option String → Except BridgeError (Option (List Nat))
  | Option.none => .ok Option.none
  | some s =>
      if s = "" then .ok Option.none else (Signature.fromString s).map some

/-- Translation of get_signatures_for_address (server.py:541). -/
def get_signatures_for_address (o : Oracle) (account : String)
    (before untl : Option String) (limit : Option Int) : InvocationResult :=
  withSession <|
    match Pubkey.fromString account with
    | .error e => failBody e
    | .ok acc =>
        match optSigArg before with
        | .error e => failBody e
        | .ok b =>
            match optSigArg untl with
            | .error e => failBody e
            | .ok u =>
                match optToU64 limit with
                | .error e => failBody e
                | .ok l =>
                    remoteCall o "get_signatures_for_address"
                      [.pubkey acc, .optSig b, .optSig u, .optNat l]
                      (fun v => "Signatures for address: " ++ pyStr v)

/-- Translation of get_token_accounts_by_delegate (server.py:569). -/
def get_token_accounts_by_delegate (o : Oracle) (delegate mint : String) :
    InvocationResult :=
  withSession <|
    match Pubkey.fromString delegate with
    | .error e => failBody e
    | .ok d =>
        match Pubkey.fromString mint with
        | .error e => failBody e
        | .ok m =>
            remoteCall o "get_token_accounts_by_delegate" [.pubkey d, .pubkey m]
              (fun v => "Token accounts by delegate: " ++ pyStr v)

/-- Translation of get_token_accounts_by_owner (server.py:587). -/
def get_token_accounts_by_owner (o : Oracle) (owner mint : String) :
    InvocationResult :=
  withSession <|
    match Pubkey.fromString owner with
    | .error e => failBody e
    | .ok w =>
        match Pubkey.fromString mint with
        | .error e => failBody e
        | .ok m =>
            remoteCall o "get_token_accounts_by_owner" [.pubkey w, .pubkey m]
              (fun v => "Token accounts by owner: " ++ pyStr v)

/-- Translation of get_token_supply (server.py:605). -/
def get_token_supply (o : Oracle) (mint : String) : InvocationResult :=
  withSession <|
    match Pubkey.fromString mint with
    | .error e => failBody e
    | .ok m =>
        remoteCall o "get_token_supply" [.pubkey m]
          (fun v => "Token supply: " ++ pyStr v)

/-- Translation of request_airdrop (server.py:620). -/
def request_airdrop (o : Oracle) (address : String) (lamports : Int) :
    InvocationResult :=
  withSession <|
    match Pubkey.fromString address with
    | .error e => failBody e
    | .ok pk =>
        match toU64 lamports with
        | .error e => failBody e
        | .ok lam =>
            remoteCall o "request_airdrop" [.pubkey pk, .nat lam]
              (fun v => "Airdrop request: " ++ pyStr v)

/-- Translation of send_transaction (server.py:636): the raw bytes are
forwarded to send_raw_transaction without local interpretation. -/
def send_transaction (o : Oracle) (txn : List Nat) : InvocationResult :=
  withSession <|
    remoteCall o "send_raw_transaction" [.rawBytes txn]
      (fun v => "Transaction sent: " ++ pyStr v)

/-- Translation of validator_exit (server.py:651). -/
def validator_exit (o : Oracle) : InvocationResult :=
  withSession <|
    remoteCall o "validator_exit" []
      (fun v => "Validator exit request: " ++ pyStr v)

/-- Oracle whose every call reports a remote RPC error. -/
def oracleRemoteErr : Oracle := fun _ _ => .remoteErr

/-- Oracle whose every call fails in the transport. -/
def oracleTransportErr : Oracle := fun _ _ => .transportErr

/-- Oracle whose every call is cancelled mid-flight. -/
def oracleCancelled : Oracle := fun _ _ => .cancelled

/-- Oracle whose every call returns the int 0. -/
def oracleInt0 : Oracle := fun _ _ => .ok (.int 0)

/-- Oracle whose every call returns a null payload. -/
def oracleNonePayload : Oracle := fun _ _ => .ok .noneVal

/-- A valid address: 32 alphabet zeros decode to 32 zero bytes. -/
def addrA : String := "11111111111111111111111111111111"

/-- A second valid address, distinct from addrA. -/
def addrB : String := "11111111111111111111111111111112"

/-- A valid signature string: 64 alphabet zeros decode to 64 zero bytes. -/
def sigA : String :=
  "1111111111111111111111111111111111111111111111111111111111111111"

/-- A second valid signature string, distinct from sigA. -/
def sigB : String :=
  "1111111111111111111111111111111111111111111111111111111111111112"

/-- Session discipline a trace can satisfy: exactly one acquisition,
exactly one release, the acquisition first and the release last. -/
def sessionScoped (tr : List Event) : Prop :=
  tr.countP isAcquire = 1 ∧ tr.countP isRelease = 1 ∧
    tr.head? = some Event.sessionAcquire ∧
    tr.getLast? = some Event.sessionRelease

/-- Classification of the error kinds: decode, overflow and key-lookup
errors are local validation failures raised before any network call,
while transport failures, remote-reported failures and cancellation are
not. -/
def isLocalValidationError : BridgeError → Bool
  | .decodeError _ => true
  | .overflowError _ => true
  | .keyError _ => true
  | .transportError => false
  | .remoteError => false
  | .cancelled => false

/-- An invocation failed with a typed error instead of returning a
string: its result is an error that is either a local validation
failure or the given transport-level kind. -/
abbrev failsTyped (r : InvocationResult) (k : BridgeError) : Prop :=
  ∃ e, r.result = .error e ∧ (isLocalValidationError e = true ∨ e = k)

/-- Invocation of get_account_info with the encoding parameter omitted:
Python binds the declared default, the literal string base64
(server.py:423), so the bound call receives that concrete string, not
an absent value. -/
def get_account_info_omitted_encoding (o : Oracle) (pubkey : String) :
    InvocationResult :=
  get_account_info o pubkey "base64"

/-- Invocation of get_multiple_accounts with the encoding parameter
omitted: Python binds the declared default, the literal string base64
(server.py:525). -/
def get_multiple_accounts_omitted_encoding (o : Oracle)
    (pubkeys : List String) : InvocationResult :=
  get_multiple_accounts o pubkeys "base64"

theorem countP_netCalls_acquire (cs : List (String × List WireArg)) :
    (cs.map (fun c => Event.netCall c.1 c.2)).countP isAcquire = 0 := by
  induction cs with
  | nil => rfl
  | cons c cs ih => simp [List.countP_cons, isAcquire, ih]

theorem countP_netCalls_release (cs : List (String × List WireArg)) :
    (cs.map (fun c => Event.netCall c.1 c.2)).countP isRelease = 0 := by
  induction cs with
  | nil => rfl
  | cons c cs ih => simp [List.countP_cons, isRelease, ih]

theorem sessionScoped_withSession (b : BodyOut) :
    sessionScoped (withSession b).trace := by
  refine ⟨?_, ?_, ?_, ?_⟩
  · simp [withSession, List.countP_append, List.countP_cons, isAcquire,
      countP_netCalls_acquire]
  · simp [withSession, List.countP_append, List.countP_cons, isRelease,
      countP_netCalls_release]
  · simp [withSession]
  · exact List.getLast?_concat _

theorem Pubkey.fromString_error_of_not32 {s : String}
    (h : ∀ bs, base58Decode s = some bs → bs.length ≠ 32) :
    Pubkey.fromString s = .error (.decodeError s) := by
  unfold Pubkey.fromString
  by_cases hl : s.length > 44
  · simp [hl]
  · simp only [hl, if_false]
    cases hd : base58Decode s with
    | none => rfl
    | some bs => simp [h bs hd]

theorem Signature.fromString_error_of_not64 {s : String}
    (h : ∀ bs, base58Decode s = some bs → bs.length ≠ 64) :
    Signature.fromString s = .error (.decodeError s) := by
  unfold Signature.fromString
  by_cases hl : s.length > 88
  · simp [hl]
  · simp only [hl, if_false]
    cases hd : base58Decode s with
    | none => rfl
    | some bs => simp [h bs hd]

theorem pubkey_addrA : Pubkey.fromString addrA = .ok (List.replicate 32 0) := by
  rfl

theorem mapDecode_ok (f : String → Except BridgeError (List Nat)) :
    ∀ (xs : List String) (ys : List (List Nat)),
      mapDecode f xs = .ok ys →
      ys.length = xs.length ∧
        ∀ i (h1 : i < xs.length) (h2 : i < ys.length), f xs[i] = .ok ys[i] := by
  intro xs
  induction xs with
  | nil =>
      intro ys h
      simp only [mapDecode, Except.ok.injEq] at h
      subst h
      exact ⟨rfl, fun i h1 _ => absurd h1 (Nat.not_lt_zero i)⟩
  | cons x xs ih =>
      intro ys h
      cases hfx : f x with
      | error e => simp [mapDecode, hfx] at h
      | ok b =>
          cases hrest : mapDecode f xs with
          | error e => simp [mapDecode, hfx, hrest] at h
          | ok bs =>
              simp only [mapDecode, hfx, hrest, Except.ok.injEq] at h
              subst h
              obtain ⟨hlen, hget⟩ := ih bs hrest
              refine ⟨by simp [hlen], ?_⟩
              intro i h1 h2
              cases i with
              | zero => simpa using hfx
              | succ j =>
                  simp only [List.getElem_cons_succ]
                  exact hget j (by simpa using h1) (by simpa using h2)

theorem pubkey_error_local {s : String} {e : BridgeError}
    (h : Pubkey.fromString s = .error e) : isLocalValidationError e = true := by
  unfold Pubkey.fromString at h
  split at h
  · injection h with h1
    subst h1
    rfl
  · split at h
    · injection h with h1
      subst h1
      rfl
    · split at h
      · exact Except.noConfusion h
      · injection h with h1
        subst h1
        rfl

theorem signature_error_local {s : String} {e : BridgeError}
    (h : Signature.fromString s = .error e) : isLocalValidationError e = true := by
  unfold Signature.fromString at h
  split at h
  · injection h with h1
    subst h1
    rfl
  · split at h
    · injection h with h1
      subst h1
      rfl
    · split at h
      · exact Except.noConfusion h
      · injection h with h1
        subst h1
        rfl

theorem toU64_error_local {v : Int} {e : BridgeError}
    (h : toU64 v = .error e) : isLocalValidationError e = true := by
  unfold toU64 at h
  split at h
  · exact Except.noConfusion h
  · injection h with h1
    subst h1
    rfl

theorem optToU64_error_local {v : Option Int} {e : BridgeError}
    (h : optToU64 v = .error e) : isLocalValidationError e = true := by
  cases v with
  | none => exact Except.noConfusion h
  | some x =>
      cases hx : toU64 x with
      | error e2 =>
          simp only [optToU64, hx, Except.map_error] at h
          injection h with h1
          subst h1
          exact toU64_error_local hx
      | ok n => simp [optToU64, hx, Except.map] at h

theorem optSigArg_error_local {v : Option String} {e : BridgeError}
    (h : optSigArg v = .error e) : isLocalValidationError e = true := by
  cases v with
  | none => exact Except.noConfusion h
  | some s =>
      simp only [optSigArg] at h
      split at h
      · exact Except.noConfusion h
      · cases hs : Signature.fromString s with
        | error e2 =>
            rw [hs] at h
            simp only [Except.map] at h
            injection h with h1
            subst h1
            exact signature_error_local hs
        | ok b =>
            rw [hs] at h
            simp only [Except.map] at h
            exact Except.noConfusion h

theorem accountEncodingLookup_error_local {s : String} {e : BridgeError}
    (h : accountEncodingLookup s = .error e) :
    isLocalValidationError e = true := by
  unfold accountEncodingLookup at h
  split at h
  · exact Except.noConfusion h
  · injection h with h1
    subst h1
    rfl

theorem mapDecode_error_local {f : String → Except BridgeError (List Nat)}
    (hf : ∀ {s e}, f s = .error e → isLocalValidationError e = true) :
    ∀ {xs : List String} {e}, mapDecode f xs = .error e →
      isLocalValidationError e = true := by
  intro xs
  induction xs with
  | nil => intro e h; exact Except.noConfusion h
  | cons x xs ih =>
      intro e h
      cases hx : f x with
      | error e2 =>
          simp only [mapDecode, hx] at h
          injection h with h1
          subst h1
          exact hf hx
      | ok b =>
          cases hr : mapDecode f xs with
          | error e2 =>
              simp only [mapDecode, hx, hr] at h
              injection h with h1
              subst h1
              exact ih hr
          | ok bs =>
              simp only [mapDecode, hx, hr] at h
              exact Except.noConfusion h

theorem bodyFails_step {α : Type} {k : BridgeError} (d : Except BridgeError α)
    (hd : ∀ e, d = .error e → isLocalValidationError e = true)
    (f : α → BodyOut)
    (hf : ∀ x, ∃ e, (f x).result = .error e ∧
      (isLocalValidationError e = true ∨ e = k)) :
    ∃ e, (match d with | .error e => failBody e | .ok x => f x).result =
        .error e ∧ (isLocalValidationError e = true ∨ e = k) := by
  cases hd' : d with
  | error e => exact ⟨e, by simp [hd', failBody], Or.inl (hd e hd')⟩
  | ok x =>
      obtain ⟨e, he, hor⟩ := hf x
      refine ⟨e, ?_, hor⟩
      simpa [hd'] using he

/-- C2: for every invocation of every operation, the session acquired
for that invocation is released exactly once on every exit path —
success, remote-reported error, transport error after acquisition, and
cancellation mid-call are all outcomes the oracle quantifies over — the
acquisition is the first event and the release the last, so no session
outlives its invocation, and each invocation acquires its own session. -/
theorem c2_theorem :
    (∀ (o : Oracle) (a : String), sessionScoped (get_balance o a).trace) ∧
    (∀ (o : Oracle) (h : String), sessionScoped (get_transaction o h).trace) ∧
    (∀ (o : Oracle) (s : Int), sessionScoped (get_block o s).trace) ∧
    (∀ o : Oracle, sessionScoped (get_block_height o).trace) ∧
    (∀ (o : Oracle) (s : Int), sessionScoped (get_block_time o s).trace) ∧
    (∀ (o : Oracle) (s : Int) (e : Option Int),
      sessionScoped (get_blocks o s e).trace) ∧
    (∀ o : Oracle, sessionScoped (get_cluster_nodes o).trace) ∧
    (∀ o : Oracle, sessionScoped (get_epoch_info o).trace) ∧
    (∀ o : Oracle, sessionScoped (get_epoch_schedule o).trace) ∧
    (∀ o : Oracle, sessionScoped (get_genesis_hash o).trace) ∧
    (∀ o : Oracle, sessionScoped (get_identity o).trace) ∧
    (∀ o : Oracle, sessionScoped (get_inflation_governor o).trace) ∧
    (∀ o : Oracle, sessionScoped (get_inflation_rate o).trace) ∧
    (∀ o : Oracle, sessionScoped (get_largest_accounts o).trace) ∧
    (∀ o : Oracle, sessionScoped (get_latest_blockhash o).trace) ∧
    (∀ (o : Oracle) (n : Int),
      sessionScoped (get_minimum_balance_for_rent_exemption o n).trace) ∧
    (∀ (o : Oracle) (p : String), sessionScoped (get_program_accounts o p).trace) ∧
    (∀ (o : Oracle) (l : Option Int),
      sessionScoped (get_recent_performance_samples o l).trace) ∧
    (∀ (o : Oracle) (ss : List String),
      sessionScoped (get_signature_statuses o ss).trace) ∧
    (∀ o : Oracle, sessionScoped (get_slot o).trace) ∧
    (∀ o : Oracle, sessionScoped (get_slot_leader o).trace) ∧
    (∀ o : Oracle, sessionScoped (get_supply o).trace) ∧
    (∀ (o : Oracle) (t : String),
      sessionScoped (get_token_account_balance o t).trace) ∧
    (∀ (o : Oracle) (m : String),
      sessionScoped (get_token_largest_accounts o m).trace) ∧
    (∀ o : Oracle, sessionScoped (get_transaction_count o).trace) ∧
    (∀ o : Oracle, sessionScoped (get_version o).trace) ∧
    (∀ o : Oracle, sessionScoped (get_vote_accounts o).trace) ∧
    (∀ o : Oracle, sessionScoped (is_connected o).trace) ∧
    (∀ (o : Oracle) (s : Int), sessionScoped (get_block_commitment o s).trace) ∧
    (∀ (o : Oracle) (t : String) (c : Option String),
      sessionScoped (confirm_transaction o t c).trace) ∧
    (∀ (o : Oracle) (p e : String), sessionScoped (get_account_info o p e).trace) ∧
    (∀ (o : Oracle) (f t : String) (l : Int),
      sessionScoped (get_fee_for_message o f t l).trace) ∧
    (∀ o : Oracle, sessionScoped (get_first_available_block o).trace) ∧
    (∀ (o : Oracle) (ps : List String) (e : Option Int),
      sessionScoped (get_inflation_reward o ps e).trace) ∧
    (∀ (o : Oracle) (e : Option Int), sessionScoped (get_leader_schedule o e).trace) ∧
    (∀ o : Oracle, sessionScoped (get_minimum_ledger_slot o).trace) ∧
    (∀ (o : Oracle) (ps : List String) (e : String),
      sessionScoped (get_multiple_accounts o ps e).trace) ∧
    (∀ (o : Oracle) (a : String) (b u : Option String) (l : Option Int),
      sessionScoped (get_signatures_for_address o a b u l).trace) ∧
    (∀ (o : Oracle) (d m : String),
      sessionScoped (get_token_accounts_by_delegate o d m).trace) ∧
    (∀ (o : Oracle) (w m : String),
      sessionScoped (get_token_accounts_by_owner o w m).trace) ∧
    (∀ (o : Oracle) (m : String), sessionScoped (get_token_supply o m).trace) ∧
    (∀ (o : Oracle) (a : String) (l : Int),
      sessionScoped (request_airdrop o a l).trace) ∧
    (∀ (o : Oracle) (t : List Nat), sessionScoped (send_transaction o t).trace) ∧
    (∀ o : Oracle, sessionScoped (validator_exit o).trace) := by
  refine ⟨fun o a => ?_, fun o h => ?_, fun o s => ?_, fun o => ?_, fun o s => ?_,
    fun o s e => ?_, fun o => ?_, fun o => ?_, fun o => ?_, fun o => ?_, fun o => ?_,
    fun o => ?_, fun o => ?_, fun o => ?_, fun o => ?_, fun o n => ?_, fun o p => ?_,
    fun o l => ?_, fun o ss => ?_, fun o => ?_, fun o => ?_, fun o => ?_,
    fun o t => ?_, fun o m => ?_, fun o => ?_, fun o => ?_, fun o => ?_, fun o => ?_,
    fun o s => ?_, fun o t c => ?_, fun o p e => ?_, fun o f t l => ?_, fun o => ?_,
    fun o ps e => ?_, fun o e => ?_, fun o => ?_, fun o ps e => ?_,
    fun o a b u l => ?_, fun o d m => ?_, fun o w m => ?_, fun o m => ?_,
    fun o a l => ?_, fun o t => ?_, fun o => ?_⟩ <;>
  exact sessionScoped_withSession _

/-- C10: for the optional string parameters commitment of
confirm_transaction and before/until of get_signatures_for_address, a
supplied empty string behaves exactly like an omitted parameter: the
whole invocation is unchanged, so the empty string is never decoded and
never yields a decode failure for these parameters. -/
theorem c10_theorem :
    (∀ (o : Oracle) (tx : String),
      confirm_transaction o tx (some "") = confirm_transaction o tx Option.none) ∧
    (∀ (o : Oracle) (acc : String) (u : Option String) (l : Option Int),
      get_signatures_for_address o acc (some "") u l =
        get_signatures_for_address o acc Option.none u l) ∧
    (∀ (o : Oracle) (acc : String) (b : Option String) (l : Option Int),
      get_signatures_for_address o acc b (some "") l =
        get_signatures_for_address o acc b Option.none l) :=
  ⟨fun _ _ => rfl, fun _ _ _ _ => rfl, fun _ _ _ _ => rfl⟩

/-- C1 is false as stated: the claim requires the decode failure to
occur before any session is acquired and to reference the offending
parameter, but invoking get_balance with the non-decoding string "0"
produces a trace whose first event is the session acquisition, and the
raised error carries only the offending input, with no parameter
name. -/
theorem c1_counterexample :
    (get_balance oracleInt0 "0").trace.head? = some Event.sessionAcquire ∧
    (get_balance oracleInt0 "0").result =
      .error (.decodeError "0") :=
  ⟨rfl, rfl⟩

/-- C1 (amended): for every operation that declares an Address or
Signature parameter, a textual argument that does not decode to exactly
32 (Address) or 64 (Signature) raw bytes under the base-58 alphabet
makes the invocation fail with a decode error carrying the offending
input; the failure happens before any network call is performed, but
inside the already-acquired session, which is still released. -/
theorem c1_theorem :
    (∀ (o : Oracle) (s : String),
      (∀ bs, base58Decode s = some bs → bs.length ≠ 32) →
      ((get_balance o s).trace = [.sessionAcquire, .sessionRelease] ∧
        (get_balance o s).result = .error (.decodeError s)) ∧
      ((get_program_accounts o s).trace = [.sessionAcquire, .sessionRelease] ∧
        (get_program_accounts o s).result = .error (.decodeError s)) ∧
      ((get_token_account_balance o s).trace = [.sessionAcquire, .sessionRelease] ∧
        (get_token_account_balance o s).result = .error (.decodeError s)) ∧
      ((get_token_largest_accounts o s).trace = [.sessionAcquire, .sessionRelease] ∧
        (get_token_largest_accounts o s).result = .error (.decodeError s)) ∧
      ((get_token_supply o s).trace = [.sessionAcquire, .sessionRelease] ∧
        (get_token_supply o s).result = .error (.decodeError s)) ∧
      ((get_account_info o s "base64").trace = [.sessionAcquire, .sessionRelease] ∧
        (get_account_info o s "base64").result = .error (.decodeError s)) ∧
      ((request_airdrop o s 1).trace = [.sessionAcquire, .sessionRelease] ∧
        (request_airdrop o s 1).result = .error (.decodeError s)) ∧
      ((get_fee_for_message o s addrA 1).trace = [.sessionAcquire, .sessionRelease] ∧
        (get_fee_for_message o s addrA 1).result = .error (.decodeError s)) ∧
      ((get_inflation_reward o [s] Option.none).trace =
          [.sessionAcquire, .sessionRelease] ∧
        (get_inflation_reward o [s] Option.none).result =
          .error (.decodeError s)) ∧
      ((get_multiple_accounts o [s] "base64").trace =
          [.sessionAcquire, .sessionRelease] ∧
        (get_multiple_accounts o [s] "base64").result =
          .error (.decodeError s)) ∧
      ((get_signatures_for_address o s Option.none Option.none Option.none).trace =
          [.sessionAcquire, .sessionRelease] ∧
        (get_signatures_for_address o s Option.none Option.none
            Option.none).result = .error (.decodeError s)) ∧
      ((get_token_accounts_by_delegate o s addrA).trace =
          [.sessionAcquire, .sessionRelease] ∧
        (get_token_accounts_by_delegate o s addrA).result =
          .error (.decodeError s)) ∧
      ((get_token_accounts_by_owner o s addrA).trace =
          [.sessionAcquire, .sessionRelease] ∧
        (get_token_accounts_by_owner o s addrA).result =
          .error (.decodeError s))) ∧
    (∀ (o : Oracle) (s : String),
      (∀ bs, base58Decode s = some bs → bs.length ≠ 64) →
      ((get_transaction o s).trace = [.sessionAcquire, .sessionRelease] ∧
        (get_transaction o s).result = .error (.decodeError s)) ∧
      ((confirm_transaction o s Option.none).trace =
          [.sessionAcquire, .sessionRelease] ∧
        (confirm_transaction o s Option.none).result =
          .error (.decodeError s)) ∧
      ((get_signature_statuses o [s]).trace = [.sessionAcquire, .sessionRelease] ∧
        (get_signature_statuses o [s]).result = .error (.decodeError s))) := by
  constructor
  · intro o s h
    have hpk := Pubkey.fromString_error_of_not32 h
    refine ⟨⟨?_, ?_⟩, ⟨?_, ?_⟩, ⟨?_, ?_⟩, ⟨?_, ?_⟩, ⟨?_, ?_⟩, ⟨?_, ?_⟩,
      ⟨?_, ?_⟩, ⟨?_, ?_⟩, ⟨?_, ?_⟩, ⟨?_, ?_⟩, ⟨?_, ?_⟩, ⟨?_, ?_⟩, ⟨?_, ?_⟩⟩ <;>
    simp [get_balance, get_program_accounts, get_token_account_balance,
      get_token_largest_accounts, get_token_supply, get_account_info,
      request_airdrop, get_fee_for_message, get_inflation_reward,
      get_multiple_accounts, get_signatures_for_address,
      get_token_accounts_by_delegate, get_token_accounts_by_owner,
      mapDecode, withSession, failBody, hpk]
  · intro o s h
    have hsg := Signature.fromString_error_of_not64 h
    refine ⟨⟨?_, ?_⟩, ⟨?_, ?_⟩, ⟨?_, ?_⟩⟩ <;>
    simp [get_transaction, confirm_transaction, get_signature_statuses,
      mapDecode, withSession, failBody, hsg]

theorem c1_witness :
    ((get_balance oracleInt0 "0").trace = [.sessionAcquire, .sessionRelease] ∧
      (get_balance oracleInt0 "0").result = .error (.decodeError "0")) ∧
    ((get_transaction oracleInt0 "0").trace = [.sessionAcquire, .sessionRelease] ∧
      (get_transaction oracleInt0 "0").result = .error (.decodeError "0")) := by
  have hz : base58Decode "0" = Option.none := rfl
  have h32 : ∀ bs, base58Decode "0" = some bs → bs.length ≠ 32 :=
    fun bs hbs => Option.noConfusion (hz ▸ hbs)
  have h64 : ∀ bs, base58Decode "0" = some bs → bs.length ≠ 64 :=
    fun bs hbs => Option.noConfusion (hz ▸ hbs)
  exact ⟨(c1_theorem.1 oracleInt0 "0" h32).1, (c1_theorem.2 oracleInt0 "0" h64).1⟩

/-- C3 is false as stated: the claim requires every omitted optional
parameter to reach the bound remote call as the use-default sentinel,
but invoking get_account_info with the encoding parameter omitted binds
the Python default and the remote call receives the concrete string
base64 — a substituted value, distinct from the absent sentinel — as
the trace of the omitted-encoding invocation shows. -/
theorem c3_counterexample :
    (get_account_info_omitted_encoding oracleInt0 addrA).trace =
      [.sessionAcquire,
        .netCall "get_account_info"
          [.pubkey (List.replicate 32 0), .str "base64"],
        .sessionRelease] ∧
    WireArg.str "base64" ≠ WireArg.optStr Option.none :=
  ⟨rfl, by simp⟩

/-- C3 (amended): for every operation with an optional parameter other
than the defaulted encoding parameter, omitting the parameter makes the
bound remote call receive the absent use-default sentinel, never a zero
or empty substitute: get_blocks with only start_slot requests an
open-ended range distinct from end_slot zero, an absent limit or epoch
is forwarded as absent by get_recent_performance_samples,
get_leader_schedule, get_inflation_reward and
get_signatures_for_address, and an absent commitment or before/until is
forwarded as absent by confirm_transaction and
get_signatures_for_address; the omitted encoding parameter of
get_account_info and get_multiple_accounts is instead bound to the
Python default and forwarded as the concrete string base64. -/
theorem c3_theorem :
    (∀ (o : Oracle) (s : Int), 0 ≤ s → s < 2 ^ 64 →
      (get_blocks o s Option.none).trace =
        [.sessionAcquire,
          .netCall "get_blocks" [.nat s.toNat, .optNat Option.none],
          .sessionRelease] ∧
      WireArg.optNat Option.none ≠ WireArg.optNat (some 0)) ∧
    (∀ o : Oracle,
      (get_recent_performance_samples o Option.none).trace =
        [.sessionAcquire,
          .netCall "get_recent_performance_samples" [.optNat Option.none],
          .sessionRelease]) ∧
    (∀ o : Oracle,
      (get_leader_schedule o Option.none).trace =
        [.sessionAcquire,
          .netCall "get_leader_schedule" [.optNat Option.none],
          .sessionRelease]) ∧
    (∀ (o : Oracle) (tx : String) (sb : List Nat),
      Signature.fromString tx = .ok sb →
      (confirm_transaction o tx Option.none).trace =
        [.sessionAcquire,
          .netCall "confirm_transaction" [.signature sb, .optStr Option.none],
          .sessionRelease]) ∧
    (∀ (o : Oracle) (ps : List String) (pks : List (List Nat)),
      mapDecode Pubkey.fromString ps = .ok pks →
      (get_inflation_reward o ps Option.none).trace =
        [.sessionAcquire,
          .netCall "get_inflation_reward" [.pubkeyList pks, .optNat Option.none],
          .sessionRelease]) ∧
    (∀ (o : Oracle) (acc : String) (pk : List Nat),
      Pubkey.fromString acc = .ok pk →
      (get_signatures_for_address o acc Option.none Option.none
          Option.none).trace =
        [.sessionAcquire,
          .netCall "get_signatures_for_address"
            [.pubkey pk, .optSig Option.none, .optSig Option.none,
              .optNat Option.none],
          .sessionRelease]) ∧
    (∀ (o : Oracle) (p : String) (pk : List Nat),
      Pubkey.fromString p = .ok pk →
      (get_account_info_omitted_encoding o p).trace =
        [.sessionAcquire,
          .netCall "get_account_info" [.pubkey pk, .str "base64"],
          .sessionRelease]) ∧
    (∀ (o : Oracle) (p : String) (pk : List Nat),
      Pubkey.fromString p = .ok pk →
      (get_multiple_accounts_omitted_encoding o [p]).trace =
        [.sessionAcquire,
          .netCall "get_multiple_accounts" [.pubkeyList [pk], .str "base64"],
          .sessionRelease]) ∧
    WireArg.optStr Option.none ≠ WireArg.optStr (some "") ∧
    WireArg.str "base64" ≠ WireArg.optStr Option.none := by
  refine ⟨?_, ?_, ?_, ?_, ?_, ?_, ?_, ?_, by simp, by simp⟩
  · intro o s h0 h1
    have hs : toU64 s = .ok s.toNat := by unfold toU64; rw [if_pos ⟨h0, h1⟩]
    constructor
    · simp [get_blocks, optToU64, hs, withSession, remoteCall]
    · simp
  · intro o
    simp [get_recent_performance_samples, optToU64, withSession, remoteCall]
  · intro o
    simp [get_leader_schedule, optToU64, withSession, remoteCall]
  · intro o tx sb hok
    simp [confirm_transaction, optCommitmentArg, hok, withSession, remoteCall]
  · intro o ps pks hok
    simp [get_inflation_reward, optToU64, hok, withSession, remoteCall]
  · intro o acc pk hok
    simp [get_signatures_for_address, optSigArg, optToU64, hok, withSession,
      remoteCall]
  · intro o p pk hok
    simp [get_account_info_omitted_encoding, get_account_info,
      accountEncodingLookup, hok, withSession, remoteCall]
  · intro o p pk hok
    simp [get_multiple_accounts_omitted_encoding, get_multiple_accounts,
      mapDecode, accountEncodingLookup, hok, withSession, remoteCall]

theorem c3_witness :
    ((get_blocks oracleInt0 100 Option.none).trace =
      [.sessionAcquire,
        .netCall "get_blocks" [.nat 100, .optNat Option.none],
        .sessionRelease] ∧
      WireArg.optNat Option.none ≠ WireArg.optNat (some 0)) ∧
    (confirm_transaction oracleInt0 sigA Option.none).trace =
      [.sessionAcquire,
        .netCall "confirm_transaction"
          [.signature (List.replicate 64 0), .optStr Option.none],
        .sessionRelease] ∧
    (get_inflation_reward oracleInt0 [addrA] Option.none).trace =
      [.sessionAcquire,
        .netCall "get_inflation_reward"
          [.pubkeyList [List.replicate 32 0], .optNat Option.none],
        .sessionRelease] ∧
    (get_signatures_for_address oracleInt0 addrA Option.none Option.none
        Option.none).trace =
      [.sessionAcquire,
        .netCall "get_signatures_for_address"
          [.pubkey (List.replicate 32 0), .optSig Option.none,
            .optSig Option.none, .optNat Option.none],
        .sessionRelease] ∧
    (get_account_info_omitted_encoding oracleInt0 addrA).trace =
      [.sessionAcquire,
        .netCall "get_account_info"
          [.pubkey (List.replicate 32 0), .str "base64"],
        .sessionRelease] ∧
    (get_multiple_accounts_omitted_encoding oracleInt0 [addrA]).trace =
      [.sessionAcquire,
        .netCall "get_multiple_accounts"
          [.pubkeyList [List.replicate 32 0], .str "base64"],
        .sessionRelease] := by
  have hsig : Signature.fromString sigA = .ok (List.replicate 64 0) := rfl
  have hmap : mapDecode Pubkey.fromString [addrA] =
      .ok [List.replicate 32 0] := rfl
  exact ⟨c3_theorem.1 oracleInt0 100 (by norm_num) (by norm_num),
    c3_theorem.2.2.2.1 oracleInt0 sigA (List.replicate 64 0) hsig,
    c3_theorem.2.2.2.2.1 oracleInt0 [addrA] [List.replicate 32 0] hmap,
    c3_theorem.2.2.2.2.2.1 oracleInt0 addrA (List.replicate 32 0) pubkey_addrA,
    c3_theorem.2.2.2.2.2.2.1 oracleInt0 addrA (List.replicate 32 0)
      pubkey_addrA,
    c3_theorem.2.2.2.2.2.2.2.1 oracleInt0 addrA (List.replicate 32 0)
      pubkey_addrA⟩

/-- C4 is false as stated: the claim requires every failure to produce
a string response naming the offending parameter or operation, but
invoking get_transaction with the non-decoding string "0" yields no
string response at all — the invocation raises a decode error carrying
only the offending input. -/
theorem c4_counterexample :
    (get_transaction oracleInt0 "0").result = .error (.decodeError "0") :=
  rfl

/-- C4 (amended): for every operation and every failure, the
invocation surfaces a raised, typed error rather than a string
response: under a failing transport the result of every one of the 44
operations, for all arguments, is an error that is either a local
validation error or the transport error, and under a node that reports
a failure it is a local validation error or the remote error; the
local, transport and remote kinds are pairwise distinguishable, and no
error constructor carries a parameter or operation name. -/
theorem c4_theorem :
    (∀ a : String, failsTyped (get_balance oracleTransportErr a) .transportError ∧
      failsTyped (get_balance oracleRemoteErr a) .remoteError) ∧
    (∀ h : String, failsTyped (get_transaction oracleTransportErr h) .transportError ∧
      failsTyped (get_transaction oracleRemoteErr h) .remoteError) ∧
    (∀ s : Int, failsTyped (get_block oracleTransportErr s) .transportError ∧
      failsTyped (get_block oracleRemoteErr s) .remoteError) ∧
    (failsTyped (get_block_height oracleTransportErr) .transportError ∧
      failsTyped (get_block_height oracleRemoteErr) .remoteError) ∧
    (∀ s : Int, failsTyped (get_block_time oracleTransportErr s) .transportError ∧
      failsTyped (get_block_time oracleRemoteErr s) .remoteError) ∧
    (∀ (s : Int) (en : Option Int),
      failsTyped (get_blocks oracleTransportErr s en) .transportError ∧
      failsTyped (get_blocks oracleRemoteErr s en) .remoteError) ∧
    (failsTyped (get_cluster_nodes oracleTransportErr) .transportError ∧
      failsTyped (get_cluster_nodes oracleRemoteErr) .remoteError) ∧
    (failsTyped (get_epoch_info oracleTransportErr) .transportError ∧
      failsTyped (get_epoch_info oracleRemoteErr) .remoteError) ∧
    (failsTyped (get_epoch_schedule oracleTransportErr) .transportError ∧
      failsTyped (get_epoch_schedule oracleRemoteErr) .remoteError) ∧
    (failsTyped (get_genesis_hash oracleTransportErr) .transportError ∧
      failsTyped (get_genesis_hash oracleRemoteErr) .remoteError) ∧
    (failsTyped (get_identity oracleTransportErr) .transportError ∧
      failsTyped (get_identity oracleRemoteErr) .remoteError) ∧
    (failsTyped (get_inflation_governor oracleTransportErr) .transportError ∧
      failsTyped (get_inflation_governor oracleRemoteErr) .remoteError) ∧
    (failsTyped (get_inflation_rate oracleTransportErr) .transportError ∧
      failsTyped (get_inflation_rate oracleRemoteErr) .remoteError) ∧
    (failsTyped (get_largest_accounts oracleTransportErr) .transportError ∧
      failsTyped (get_largest_accounts oracleRemoteErr) .remoteError) ∧
    (failsTyped (get_latest_blockhash oracleTransportErr) .transportError ∧
      failsTyped (get_latest_blockhash oracleRemoteErr) .remoteError) ∧
    (∀ n : Int,
      failsTyped (get_minimum_balance_for_rent_exemption oracleTransportErr n)
        .transportError ∧
      failsTyped (get_minimum_balance_for_rent_exemption oracleRemoteErr n)
        .remoteError) ∧
    (∀ p : String,
      failsTyped (get_program_accounts oracleTransportErr p) .transportError ∧
      failsTyped (get_program_accounts oracleRemoteErr p) .remoteError) ∧
    (∀ l : Option Int,
      failsTyped (get_recent_performance_samples oracleTransportErr l)
        .transportError ∧
      failsTyped (get_recent_performance_samples oracleRemoteErr l)
        .remoteError) ∧
    (∀ ss : List String,
      failsTyped (get_signature_statuses oracleTransportErr ss) .transportError ∧
      failsTyped (get_signature_statuses oracleRemoteErr ss) .remoteError) ∧
    (failsTyped (get_slot oracleTransportErr) .transportError ∧
      failsTyped (get_slot oracleRemoteErr) .remoteError) ∧
    (failsTyped (get_slot_leader oracleTransportErr) .transportError ∧
      failsTyped (get_slot_leader oracleRemoteErr) .remoteError) ∧
    (failsTyped (get_supply oracleTransportErr) .transportError ∧
      failsTyped (get_supply oracleRemoteErr) .remoteError) ∧
    (∀ t : String,
      failsTyped (get_token_account_balance oracleTransportErr t) .transportError ∧
      failsTyped (get_token_account_balance oracleRemoteErr t) .remoteError) ∧
    (∀ m : String,
      failsTyped (get_token_largest_accounts oracleTransportErr m) .transportError ∧
      failsTyped (get_token_largest_accounts oracleRemoteErr m) .remoteError) ∧
    (failsTyped (get_transaction_count oracleTransportErr) .transportError ∧
      failsTyped (get_transaction_count oracleRemoteErr) .remoteError) ∧
    (failsTyped (get_version oracleTransportErr) .transportError ∧
      failsTyped (get_version oracleRemoteErr) .remoteError) ∧
    (failsTyped (get_vote_accounts oracleTransportErr) .transportError ∧
      failsTyped (get_vote_accounts oracleRemoteErr) .remoteError) ∧
    (failsTyped (is_connected oracleTransportErr) .transportError ∧
      failsTyped (is_connected oracleRemoteErr) .remoteError) ∧
    (∀ s : Int,
      failsTyped (get_block_commitment oracleTransportErr s) .transportError ∧
      failsTyped (get_block_commitment oracleRemoteErr s) .remoteError) ∧
    (∀ (t : String) (c : Option String),
      failsTyped (confirm_transaction oracleTransportErr t c) .transportError ∧
      failsTyped (confirm_transaction oracleRemoteErr t c) .remoteError) ∧
    (∀ p e : String,
      failsTyped (get_account_info oracleTransportErr p e) .transportError ∧
      failsTyped (get_account_info oracleRemoteErr p e) .remoteError) ∧
    (∀ (f t : String) (l : Int),
      failsTyped (get_fee_for_message oracleTransportErr f t l) .transportError ∧
      failsTyped (get_fee_for_message oracleRemoteErr f t l) .remoteError) ∧
    (failsTyped (get_first_available_block oracleTransportErr) .transportError ∧
      failsTyped (get_first_available_block oracleRemoteErr) .remoteError) ∧
    (∀ (ps : List String) (e : Option Int),
      failsTyped (get_inflation_reward oracleTransportErr ps e) .transportError ∧
      failsTyped (get_inflation_reward oracleRemoteErr ps e) .remoteError) ∧
    (∀ e : Option Int,
      failsTyped (get_leader_schedule oracleTransportErr e) .transportError ∧
      failsTyped (get_leader_schedule oracleRemoteErr e) .remoteError) ∧
    (failsTyped (get_minimum_ledger_slot oracleTransportErr) .transportError ∧
      failsTyped (get_minimum_ledger_slot oracleRemoteErr) .remoteError) ∧
    (∀ (ps : List String) (e : String),
      failsTyped (get_multiple_accounts oracleTransportErr ps e) .transportError ∧
      failsTyped (get_multiple_accounts oracleRemoteErr ps e) .remoteError) ∧
    (∀ (a : String) (b u : Option String) (l : Option Int),
      failsTyped (get_signatures_for_address oracleTransportErr a b u l)
        .transportError ∧
      failsTyped (get_signatures_for_address oracleRemoteErr a b u l)
        .remoteError) ∧
    (∀ d m : String,
      failsTyped (get_token_accounts_by_delegate oracleTransportErr d m)
        .transportError ∧
      failsTyped (get_token_accounts_by_delegate oracleRemoteErr d m)
        .remoteError) ∧
    (∀ w m : String,
      failsTyped (get_token_accounts_by_owner oracleTransportErr w m)
        .transportError ∧
      failsTyped (get_token_accounts_by_owner oracleRemoteErr w m)
        .remoteError) ∧
    (∀ m : String,
      failsTyped (get_token_supply oracleTransportErr m) .transportError ∧
      failsTyped (get_token_supply oracleRemoteErr m) .remoteError) ∧
    (∀ (a : String) (l : Int),
      failsTyped (request_airdrop oracleTransportErr a l) .transportError ∧
      failsTyped (request_airdrop oracleRemoteErr a l) .remoteError) ∧
    (∀ t : List Nat,
      failsTyped (send_transaction oracleTransportErr t) .transportError ∧
      failsTyped (send_transaction oracleRemoteErr t) .remoteError) ∧
    (failsTyped (validator_exit oracleTransportErr) .transportError ∧
      failsTyped (validator_exit oracleRemoteErr) .remoteError) ∧
    (∀ s : String, isLocalValidationError (BridgeError.decodeError s) = true) ∧
    (∀ v : Int, isLocalValidationError (BridgeError.overflowError v) = true) ∧
    (∀ s : String, isLocalValidationError (BridgeError.keyError s) = true) ∧
    isLocalValidationError BridgeError.transportError = false ∧
    isLocalValidationError BridgeError.remoteError = false ∧
    BridgeError.transportError ≠ BridgeError.remoteError := by
  refine ⟨?_, ?_, ?_, ?_, ?_, ?_, ?_, ?_, ?_, ?_, ?_, ?_, ?_, ?_, ?_, ?_, ?_,
    ?_, ?_, ?_, ?_, ?_, ?_, ?_, ?_, ?_, ?_, ?_, ?_, ?_, ?_, ?_, ?_, ?_, ?_,
    ?_, ?_, ?_, ?_, ?_, ?_, ?_, ?_, ?_, fun s => rfl, fun v => rfl,
    fun s => rfl, rfl, rfl, by simp⟩
  · intro a
    constructor
    all_goals
      cases h1 : Pubkey.fromString a with
      | error e =>
          exact ⟨e, by simp [get_balance, withSession, failBody, h1],
            Or.inl (pubkey_error_local h1)⟩
      | ok pk =>
          refine ⟨_, ?_, Or.inr rfl⟩
          simp [get_balance, withSession, remoteCall, h1, oracleTransportErr,
            oracleRemoteErr]
  · intro h
    constructor
    all_goals
      cases h1 : Signature.fromString h with
      | error e =>
          exact ⟨e, by simp [get_transaction, withSession, failBody, h1],
            Or.inl (signature_error_local h1)⟩
      | ok sg =>
          refine ⟨_, ?_, Or.inr rfl⟩
          simp [get_transaction, withSession, remoteCall, h1,
            oracleTransportErr, oracleRemoteErr]
  · intro s
    constructor
    all_goals
      cases h1 : toU64 s with
      | error e =>
          exact ⟨e, by simp [get_block, withSession, failBody, h1],
            Or.inl (toU64_error_local h1)⟩
      | ok n =>
          refine ⟨_, ?_, Or.inr rfl⟩
          simp [get_block, withSession, remoteCall, h1, oracleTransportErr,
            oracleRemoteErr]
  · exact ⟨⟨.transportError, rfl, Or.inr rfl⟩, ⟨.remoteError, rfl, Or.inr rfl⟩⟩
  · intro s
    constructor
    all_goals
      cases h1 : toU64 s with
      | error e =>
          exact ⟨e, by simp [get_block_time, withSession, failBody, h1],
            Or.inl (toU64_error_local h1)⟩
      | ok n =>
          refine ⟨_, ?_, Or.inr rfl⟩
          simp [get_block_time, withSession, remoteCall, h1,
            oracleTransportErr, oracleRemoteErr]
  · intro s en
    constructor
    all_goals
      cases h1 : toU64 s with
      | error e =>
          exact ⟨e, by simp [get_blocks, withSession, failBody, h1],
            Or.inl (toU64_error_local h1)⟩
      | ok n =>
          cases h2 : optToU64 en with
          | error e =>
              exact ⟨e, by simp [get_blocks, withSession, failBody, h1, h2],
                Or.inl (optToU64_error_local h2)⟩
          | ok en2 =>
              refine ⟨_, ?_, Or.inr rfl⟩
              simp [get_blocks, withSession, remoteCall, h1, h2,
                oracleTransportErr, oracleRemoteErr]
  · exact ⟨⟨.transportError, rfl, Or.inr rfl⟩, ⟨.remoteError, rfl, Or.inr rfl⟩⟩
  · exact ⟨⟨.transportError, rfl, Or.inr rfl⟩, ⟨.remoteError, rfl, Or.inr rfl⟩⟩
  · exact ⟨⟨.transportError, rfl, Or.inr rfl⟩, ⟨.remoteError, rfl, Or.inr rfl⟩⟩
  · exact ⟨⟨.transportError, rfl, Or.inr rfl⟩, ⟨.remoteError, rfl, Or.inr rfl⟩⟩
  · exact ⟨⟨.transportError, rfl, Or.inr rfl⟩, ⟨.remoteError, rfl, Or.inr rfl⟩⟩
  · exact ⟨⟨.transportError, rfl, Or.inr rfl⟩, ⟨.remoteError, rfl, Or.inr rfl⟩⟩
  · exact ⟨⟨.transportError, rfl, Or.inr rfl⟩, ⟨.remoteError, rfl, Or.inr rfl⟩⟩
  · exact ⟨⟨.transportError, rfl, Or.inr rfl⟩, ⟨.remoteError, rfl, Or.inr rfl⟩⟩
  · exact ⟨⟨.transportError, rfl, Or.inr rfl⟩, ⟨.remoteError, rfl, Or.inr rfl⟩⟩
  · intro n
    constructor
    all_goals
      cases h1 : toU64 n with
      | error e =>
          exact ⟨e, by simp [get_minimum_balance_for_rent_exemption,
            withSession, failBody, h1], Or.inl (toU64_error_local h1)⟩
      | ok n2 =>
          refine ⟨_, ?_, Or.inr rfl⟩
          simp [get_minimum_balance_for_rent_exemption, withSession,
            remoteCall, h1, oracleTransportErr, oracleRemoteErr]
  · intro p
    constructor
    all_goals
      cases h1 : Pubkey.fromString p with
      | error e =>
          exact ⟨e, by simp [get_program_accounts, withSession, failBody, h1],
            Or.inl (pubkey_error_local h1)⟩
      | ok pk =>
          refine ⟨_, ?_, Or.inr rfl⟩
          simp [get_program_accounts, withSession, remoteCall, h1,
            oracleTransportErr, oracleRemoteErr]
  · intro l
    constructor
    all_goals
      cases h1 : optToU64 l with
      | error e =>
          exact ⟨e, by simp [get_recent_performance_samples, withSession,
            failBody, h1], Or.inl (optToU64_error_local h1)⟩
      | ok l2 =>
          refine ⟨_, ?_, Or.inr rfl⟩
          simp [get_recent_performance_samples, withSession, remoteCall, h1,
            oracleTransportErr, oracleRemoteErr]
  · intro ss
    constructor
    all_goals
      cases h1 : mapDecode Signature.fromString ss with
      | error e =>
          exact ⟨e, by simp [get_signature_statuses, withSession, failBody, h1],
            Or.inl (mapDecode_error_local (fun hh => signature_error_local hh) h1)⟩
      | ok sgs =>
          refine ⟨_, ?_, Or.inr rfl⟩
          simp [get_signature_statuses, withSession, remoteCall, h1,
            oracleTransportErr, oracleRemoteErr]
  · exact ⟨⟨.transportError, rfl, Or.inr rfl⟩, ⟨.remoteError, rfl, Or.inr rfl⟩⟩
  · exact ⟨⟨.transportError, rfl, Or.inr rfl⟩, ⟨.remoteError, rfl, Or.inr rfl⟩⟩
  · exact ⟨⟨.transportError, rfl, Or.inr rfl⟩, ⟨.remoteError, rfl, Or.inr rfl⟩⟩
  · intro t
    constructor
    all_goals
      cases h1 : Pubkey.fromString t with
      | error e =>
          exact ⟨e, by simp [get_token_account_balance, withSession, failBody,
            h1], Or.inl (pubkey_error_local h1)⟩
      | ok pk =>
          refine ⟨_, ?_, Or.inr rfl⟩
          simp [get_token_account_balance, withSession, remoteCall, h1,
            oracleTransportErr, oracleRemoteErr]
  · intro m
    constructor
    all_goals
      cases h1 : Pubkey.fromString m with
      | error e =>
          exact ⟨e, by simp [get_token_largest_accounts, withSession, failBody,
            h1], Or.inl (pubkey_error_local h1)⟩
      | ok pk =>
          refine ⟨_, ?_, Or.inr rfl⟩
          simp [get_token_largest_accounts, withSession, remoteCall, h1,
            oracleTransportErr, oracleRemoteErr]
  · exact ⟨⟨.transportError, rfl, Or.inr rfl⟩, ⟨.remoteError, rfl, Or.inr rfl⟩⟩
  · exact ⟨⟨.transportError, rfl, Or.inr rfl⟩, ⟨.remoteError, rfl, Or.inr rfl⟩⟩
  · exact ⟨⟨.transportError, rfl, Or.inr rfl⟩, ⟨.remoteError, rfl, Or.inr rfl⟩⟩
  · exact ⟨⟨.transportError, rfl, Or.inr rfl⟩, ⟨.remoteError, rfl, Or.inr rfl⟩⟩
  · intro s
    constructor
    all_goals
      cases h1 : toU64 s with
      | error e =>
          exact ⟨e, by simp [get_block_commitment, withSession, failBody, h1],
            Or.inl (toU64_error_local h1)⟩
      | ok n =>
          refine ⟨_, ?_, Or.inr rfl⟩
          simp [get_block_commitment, withSession, remoteCall, h1,
            oracleTransportErr, oracleRemoteErr]
  · intro t c
    constructor
    all_goals
      cases h1 : Signature.fromString t with
      | error e =>
          exact ⟨e, by simp [confirm_transaction, withSession, failBody, h1],
            Or.inl (signature_error_local h1)⟩
      | ok sg =>
          refine ⟨_, ?_, Or.inr rfl⟩
          simp [confirm_transaction, withSession, remoteCall, h1,
            oracleTransportErr, oracleRemoteErr]
  · intro p e
    constructor
    all_goals
      cases h1 : Pubkey.fromString p with
      | error e2 =>
          exact ⟨e2, by simp [get_account_info, withSession, failBody, h1],
            Or.inl (pubkey_error_local h1)⟩
      | ok pk =>
          cases h2 : accountEncodingLookup e with
          | error e2 =>
              exact ⟨e2, by simp [get_account_info, withSession, failBody, h1,
                h2], Or.inl (accountEncodingLookup_error_local h2)⟩
          | ok enc =>
              refine ⟨_, ?_, Or.inr rfl⟩
              simp [get_account_info, withSession, remoteCall, h1, h2,
                oracleTransportErr, oracleRemoteErr]
  · intro f t l
    constructor
    all_goals
      cases h1 : Pubkey.fromString f with
      | error e =>
          exact ⟨e, by simp [get_fee_for_message, withSession, failBody, h1],
            Or.inl (pubkey_error_local h1)⟩
      | ok fpk =>
          cases h2 : Pubkey.fromString t with
          | error e =>
              exact ⟨e, by simp [get_fee_for_message, withSession, failBody,
                h1, h2], Or.inl (pubkey_error_local h2)⟩
          | ok tpk =>
              cases h3 : toU64 l with
              | error e =>
                  exact ⟨e, by simp [get_fee_for_message, withSession,
                    failBody, h1, h2, h3], Or.inl (toU64_error_local h3)⟩
              | ok lam =>
                  refine ⟨_, ?_, Or.inr rfl⟩
                  simp [get_fee_for_message, withSession, remoteCall, h1, h2,
                    h3, oracleTransportErr, oracleRemoteErr]
  · exact ⟨⟨.transportError, rfl, Or.inr rfl⟩, ⟨.remoteError, rfl, Or.inr rfl⟩⟩
  · intro ps e
    constructor
    all_goals
      cases h1 : mapDecode Pubkey.fromString ps with
      | error e2 =>
          exact ⟨e2, by simp [get_inflation_reward, withSession, failBody, h1],
            Or.inl (mapDecode_error_local (fun hh => pubkey_error_local hh) h1)⟩
      | ok pks =>
          cases h2 : optToU64 e with
          | error e2 =>
              exact ⟨e2, by simp [get_inflation_reward, withSession, failBody,
                h1, h2], Or.inl (optToU64_error_local h2)⟩
          | ok ep =>
              refine ⟨_, ?_, Or.inr rfl⟩
              simp [get_inflation_reward, withSession, remoteCall, h1, h2,
                oracleTransportErr, oracleRemoteErr]
  · intro e
    constructor
    all_goals
      cases h1 : optToU64 e with
      | error e2 =>
          exact ⟨e2, by simp [get_leader_schedule, withSession, failBody, h1],
            Or.inl (optToU64_error_local h1)⟩
      | ok ep =>
          refine ⟨_, ?_, Or.inr rfl⟩
          simp [get_leader_schedule, withSession, remoteCall, h1,
            oracleTransportErr, oracleRemoteErr]
  · exact ⟨⟨.transportError, rfl, Or.inr rfl⟩, ⟨.remoteError, rfl, Or.inr rfl⟩⟩
  · intro ps e
    constructor
    all_goals
      cases h1 : mapDecode Pubkey.fromString ps with
      | error e2 =>
          exact ⟨e2, by simp [get_multiple_accounts, withSession, failBody, h1],
            Or.inl (mapDecode_error_local (fun hh => pubkey_error_local hh) h1)⟩
      | ok pks =>
          cases h2 : accountEncodingLookup e with
          | error e2 =>
              exact ⟨e2, by simp [get_multiple_accounts, withSession, failBody,
                h1, h2], Or.inl (accountEncodingLookup_error_local h2)⟩
          | ok enc =>
              refine ⟨_, ?_, Or.inr rfl⟩
              simp [get_multiple_accounts, withSession, remoteCall, h1, h2,
                oracleTransportErr, oracleRemoteErr]
  · intro a b u l
    constructor
    all_goals
      cases h1 : Pubkey.fromString a with
      | error e =>
          exact ⟨e, by simp [get_signatures_for_address, withSession, failBody,
            h1], Or.inl (pubkey_error_local h1)⟩
      | ok pk =>
          cases h2 : optSigArg b with
          | error e =>
              exact ⟨e, by simp [get_signatures_for_address, withSession,
                failBody, h1, h2], Or.inl (optSigArg_error_local h2)⟩
          | ok bb =>
              cases h3 : optSigArg u with
              | error e =>
                  exact ⟨e, by simp [get_signatures_for_address, withSession,
                    failBody, h1, h2, h3], Or.inl (optSigArg_error_local h3)⟩
              | ok uu =>
                  cases h4 : optToU64 l with
                  | error e =>
                      exact ⟨e, by simp [get_signatures_for_address,
                        withSession, failBody, h1, h2, h3, h4],
                        Or.inl (optToU64_error_local h4)⟩
                  | ok ll =>
                      refine ⟨_, ?_, Or.inr rfl⟩
                      simp [get_signatures_for_address, withSession,
                        remoteCall, h1, h2, h3, h4, oracleTransportErr,
                        oracleRemoteErr]
  · intro d m
    constructor
    all_goals
      cases h1 : Pubkey.fromString d with
      | error e =>
          exact ⟨e, by simp [get_token_accounts_by_delegate, withSession,
            failBody, h1], Or.inl (pubkey_error_local h1)⟩
      | ok dk =>
          cases h2 : Pubkey.fromString m with
          | error e =>
              exact ⟨e, by simp [get_token_accounts_by_delegate, withSession,
                failBody, h1, h2], Or.inl (pubkey_error_local h2)⟩
          | ok mk =>
              refine ⟨_, ?_, Or.inr rfl⟩
              simp [get_token_accounts_by_delegate, withSession, remoteCall,
                h1, h2, oracleTransportErr, oracleRemoteErr]
  · intro w m
    constructor
    all_goals
      cases h1 : Pubkey.fromString w with
      | error e =>
          exact ⟨e, by simp [get_token_accounts_by_owner, withSession,
            failBody, h1], Or.inl (pubkey_error_local h1)⟩
      | ok wk =>
          cases h2 : Pubkey.fromString m with
          | error e =>
              exact ⟨e, by simp [get_token_accounts_by_owner, withSession,
                failBody, h1, h2], Or.inl (pubkey_error_local h2)⟩
          | ok mk =>
              refine ⟨_, ?_, Or.inr rfl⟩
              simp [get_token_accounts_by_owner, withSession, remoteCall, h1,
                h2, oracleTransportErr, oracleRemoteErr]
  · intro m
    constructor
    all_goals
      cases h1 : Pubkey.fromString m with
      | error e =>
          exact ⟨e, by simp [get_token_supply, withSession, failBody, h1],
            Or.inl (pubkey_error_local h1)⟩
      | ok mk =>
          refine ⟨_, ?_, Or.inr rfl⟩
          simp [get_token_supply, withSession, remoteCall, h1,
            oracleTransportErr, oracleRemoteErr]
  · intro a l
    constructor
    all_goals
      cases h1 : Pubkey.fromString a with
      | error e =>
          exact ⟨e, by simp [request_airdrop, withSession, failBody, h1],
            Or.inl (pubkey_error_local h1)⟩
      | ok pk =>
          cases h2 : toU64 l with
          | error e =>
              exact ⟨e, by simp [request_airdrop, withSession, failBody, h1,
                h2], Or.inl (toU64_error_local h2)⟩
          | ok lam =>
              refine ⟨_, ?_, Or.inr rfl⟩
              simp [request_airdrop, withSession, remoteCall, h1, h2,
                oracleTransportErr, oracleRemoteErr]
  · intro t
    exact ⟨⟨.transportError, rfl, Or.inr rfl⟩, ⟨.remoteError, rfl, Or.inr rfl⟩⟩
  · exact ⟨⟨.transportError, rfl, Or.inr rfl⟩, ⟨.remoteError, rfl, Or.inr rfl⟩⟩

/-- C5 is false as stated: the claim requires the label before the
colon to be a fixed string per operation, but get_balance interpolates
the queried address into its label, so two successful invocations of
the same operation carry two different labels. -/
theorem c5_counterexample :
    (get_balance oracleInt0 addrA).result =
      .ok "Balance of 11111111111111111111111111111111: 0" ∧
    (get_balance oracleInt0 addrB).result =
      .ok "Balance of 11111111111111111111111111111112: 0" ∧
    "Balance of 11111111111111111111111111111111" ≠
      "Balance of 11111111111111111111111111111112" :=
  ⟨rfl, rfl, by decide⟩

/-- C5 (amended): for every operation, the successful response is the
single line made of the operation label, a colon and the rendered
payload; the label is fixed per operation except for get_balance, whose
label embeds the queried address; get_block_height with a healthy
transport reporting height n returns "Block height: " followed by the
decimal of the non-negative integer n, and the shape is kept even when
the remote payload is empty or null, which renders as None. -/
theorem c5_theorem :
    (∀ (o : Oracle) (a : String) (pk : List Nat) (v : PyVal),
      Pubkey.fromString a = .ok pk →
      o "get_balance" [.pubkey pk] = .ok v →
      (get_balance o a).result = .ok ("Balance of " ++ a ++ ": " ++ pyStr v)) ∧
    (∀ (o : Oracle) (h : String) (sb : List Nat) (v : PyVal),
      Signature.fromString h = .ok sb →
      o "get_transaction" [.signature sb] = .ok v →
      (get_transaction o h).result = .ok ("Transaction: " ++ pyStr v)) ∧
    (∀ (o : Oracle) (s : Int) (n : Nat) (v : PyVal),
      toU64 s = .ok n → o "get_block" [.nat n] = .ok v →
      (get_block o s).result = .ok ("Block: " ++ pyStr v)) ∧
    (∀ (o : Oracle) (v : PyVal), o "get_block_height" [] = .ok v →
      (get_block_height o).result = .ok ("Block height: " ++ pyStr v)) ∧
    (∀ (o : Oracle) (n : Nat), o "get_block_height" [] = .ok (.int (n : Int)) →
      (get_block_height o).result = .ok ("Block height: " ++ toString n)) ∧
    (∀ (o : Oracle) (s : Int) (n : Nat) (v : PyVal),
      toU64 s = .ok n → o "get_block_time" [.nat n] = .ok v →
      (get_block_time o s).result = .ok ("Block time: " ++ pyStr v)) ∧
    (∀ (o : Oracle) (s : Int) (en : Option Int) (n : Nat) (en2 : Option Nat)
      (v : PyVal), toU64 s = .ok n → optToU64 en = .ok en2 →
      o "get_blocks" [.nat n, .optNat en2] = .ok v →
      (get_blocks o s en).result = .ok ("Blocks: " ++ pyStr v)) ∧
    (∀ (o : Oracle) (v : PyVal), o "get_cluster_nodes" [] = .ok v →
      (get_cluster_nodes o).result = .ok ("Cluster nodes: " ++ pyStr v)) ∧
    (∀ (o : Oracle) (v : PyVal), o "get_epoch_info" [] = .ok v →
      (get_epoch_info o).result = .ok ("Epoch info: " ++ pyStr v)) ∧
    (∀ (o : Oracle) (v : PyVal), o "get_epoch_schedule" [] = .ok v →
      (get_epoch_schedule o).result = .ok ("Epoch schedule: " ++ pyStr v)) ∧
    (∀ (o : Oracle) (v : PyVal), o "get_genesis_hash" [] = .ok v →
      (get_genesis_hash o).result = .ok ("Genesis hash: " ++ pyStr v)) ∧
    (∀ (o : Oracle) (v : PyVal), o "get_identity" [] = .ok v →
      (get_identity o).result = .ok ("Node identity: " ++ pyStr v)) ∧
    (∀ (o : Oracle) (v : PyVal), o "get_inflation_governor" [] = .ok v →
      (get_inflation_governor o).result =
        .ok ("Inflation governor: " ++ pyStr v)) ∧
    (∀ (o : Oracle) (v : PyVal), o "get_inflation_rate" [] = .ok v →
      (get_inflation_rate o).result = .ok ("Inflation rate: " ++ pyStr v)) ∧
    (∀ (o : Oracle) (v : PyVal), o "get_largest_accounts" [] = .ok v →
      (get_largest_accounts o).result =
        .ok ("Largest accounts: " ++ pyStr v)) ∧
    (∀ (o : Oracle) (v : PyVal), o "get_latest_blockhash" [] = .ok v →
      (get_latest_blockhash o).result =
        .ok ("Latest blockhash: " ++ pyStr v)) ∧
    (∀ (o : Oracle) (s : Int) (n : Nat) (v : PyVal),
      toU64 s = .ok n →
      o "get_minimum_balance_for_rent_exemption" [.nat n] = .ok v →
      (get_minimum_balance_for_rent_exemption o s).result =
        .ok ("Minimum balance for rent exemption: " ++ pyStr v)) ∧
    (∀ (o : Oracle) (p : String) (pk : List Nat) (v : PyVal),
      Pubkey.fromString p = .ok pk →
      o "get_program_accounts" [.pubkey pk] = .ok v →
      (get_program_accounts o p).result =
        .ok ("Program accounts: " ++ pyStr v)) ∧
    (∀ (o : Oracle) (l : Option Int) (l2 : Option Nat) (v : PyVal),
      optToU64 l = .ok l2 →
      o "get_recent_performance_samples" [.optNat l2] = .ok v →
      (get_recent_performance_samples o l).result =
        .ok ("Performance samples: " ++ pyStr v)) ∧
    (∀ (o : Oracle) (ss : List String) (bs : List (List Nat)) (v : PyVal),
      mapDecode Signature.fromString ss = .ok bs →
      o "get_signature_statuses" [.sigList bs] = .ok v →
      (get_signature_statuses o ss).result =
        .ok ("Signature statuses: " ++ pyStr v)) ∧
    (∀ (o : Oracle) (v : PyVal), o "get_slot" [] = .ok v →
      (get_slot o).result = .ok ("Current slot: " ++ pyStr v)) ∧
    (∀ (o : Oracle) (v : PyVal), o "get_slot_leader" [] = .ok v →
      (get_slot_leader o).result = .ok ("Slot leader: " ++ pyStr v)) ∧
    (∀ (o : Oracle) (v : PyVal), o "get_supply" [] = .ok v →
      (get_supply o).result = .ok ("Supply info: " ++ pyStr v)) ∧
    (∀ (o : Oracle) (t : String) (pk : List Nat) (v : PyVal),
      Pubkey.fromString t = .ok pk →
      o "get_token_account_balance" [.pubkey pk] = .ok v →
      (get_token_account_balance o t).result =
        .ok ("Token account balance: " ++ pyStr v)) ∧
    (∀ (o : Oracle) (m : String) (pk : List Nat) (v : PyVal),
      Pubkey.fromString m = .ok pk →
      o "get_token_largest_accounts" [.pubkey pk] = .ok v →
      (get_token_largest_accounts o m).result =
        .ok ("Largest token accounts: " ++ pyStr v)) ∧
    (∀ (o : Oracle) (v : PyVal), o "get_transaction_count" [] = .ok v →
      (get_transaction_count o).result =
        .ok ("Transaction count: " ++ pyStr v)) ∧
    (∀ (o : Oracle) (v : PyVal), o "get_version" [] = .ok v →
      (get_version o).result = .ok ("Version info: " ++ pyStr v)) ∧
    (∀ (o : Oracle) (v : PyVal), o "get_vote_accounts" [] = .ok v →
      (get_vote_accounts o).result = .ok ("Vote accounts: " ++ pyStr v)) ∧
    (∀ (o : Oracle) (v : PyVal), o "is_connected" [] = .ok v →
      (is_connected o).result = .ok ("Connected: " ++ pyStr v)) ∧
    (∀ (o : Oracle) (s : Int) (n : Nat) (v : PyVal),
      toU64 s = .ok n → o "get_block_commitment" [.nat n] = .ok v →
      (get_block_commitment o s).result =
        .ok ("Block commitment: " ++ pyStr v)) ∧
    (∀ (o : Oracle) (t : String) (c : Option String) (sb : List Nat)
      (v : PyVal), Signature.fromString t = .ok sb →
      o "confirm_transaction" [.signature sb, .optStr (optCommitmentArg c)] =
        .ok v →
      (confirm_transaction o t c).result =
        .ok ("Transaction confirmation: " ++ pyStr v)) ∧
    (∀ (o : Oracle) (p enc : String) (pk : List Nat) (enc2 : String)
      (v : PyVal), Pubkey.fromString p = .ok pk →
      accountEncodingLookup enc = .ok enc2 →
      o "get_account_info" [.pubkey pk, .str enc2] = .ok v →
      (get_account_info o p enc).result = .ok ("Account info: " ++ pyStr v)) ∧
    (∀ (o : Oracle) (f t : String) (l : Int) (fb tb : List Nat) (ln : Nat)
      (v : PyVal), Pubkey.fromString f = .ok fb →
      Pubkey.fromString t = .ok tb → toU64 l = .ok ln →
      o "get_fee_for_message" [.msg ⟨[transferInstruction fb tb ln]⟩] = .ok v →
      (get_fee_for_message o f t l).result =
        .ok ("Message fee: " ++ pyStr v)) ∧
    (∀ (o : Oracle) (v : PyVal), o "get_first_available_block" [] = .ok v →
      (get_first_available_block o).result =
        .ok ("First available block: " ++ pyStr v)) ∧
    (∀ (o : Oracle) (ps : List String) (e : Option Int)
      (pks : List (List Nat)) (ep : Option Nat) (v : PyVal),
      mapDecode Pubkey.fromString ps = .ok pks → optToU64 e = .ok ep →
      o "get_inflation_reward" [.pubkeyList pks, .optNat ep] = .ok v →
      (get_inflation_reward o ps e).result =
        .ok ("Inflation rewards: " ++ pyStr v)) ∧
    (∀ (o : Oracle) (e : Option Int) (ep : Option Nat) (v : PyVal),
      optToU64 e = .ok ep →
      o "get_leader_schedule" [.optNat ep] = .ok v →
      (get_leader_schedule o e).result =
        .ok ("Leader schedule: " ++ pyStr v)) ∧
    (∀ (o : Oracle) (v : PyVal), o "minimum_ledger_slot" [] = .ok v →
      (get_minimum_ledger_slot o).result =
        .ok ("Minimum ledger slot: " ++ pyStr v)) ∧
    (∀ (o : Oracle) (ps : List String) (enc : String)
      (pks : List (List Nat)) (enc2 : String) (v : PyVal),
      mapDecode Pubkey.fromString ps = .ok pks →
      accountEncodingLookup enc = .ok enc2 →
      o "get_multiple_accounts" [.pubkeyList pks, .str enc2] = .ok v →
      (get_multiple_accounts o ps enc).result =
        .ok ("Multiple accounts info: " ++ pyStr v)) ∧
    (∀ (o : Oracle) (a : String) (b u : Option String) (l : Option Int)
      (pk : List Nat) (bb uu : Option (List Nat)) (ll : Option Nat)
      (v : PyVal), Pubkey.fromString a = .ok pk →
      optSigArg b = .ok bb → optSigArg u = .ok uu → optToU64 l = .ok ll →
      o "get_signatures_for_address"
          [.pubkey pk, .optSig bb, .optSig uu, .optNat ll] = .ok v →
      (get_signatures_for_address o a b u l).result =
        .ok ("Signatures for address: " ++ pyStr v)) ∧
    (∀ (o : Oracle) (d m : String) (dk mk : List Nat) (v : PyVal),
      Pubkey.fromString d = .ok dk → Pubkey.fromString m = .ok mk →
      o "get_token_accounts_by_delegate" [.pubkey dk, .pubkey mk] = .ok v →
      (get_token_accounts_by_delegate o d m).result =
        .ok ("Token accounts by delegate: " ++ pyStr v)) ∧
    (∀ (o : Oracle) (w m : String) (wk mk : List Nat) (v : PyVal),
      Pubkey.fromString w = .ok wk → Pubkey.fromString m = .ok mk →
      o "get_token_accounts_by_owner" [.pubkey wk, .pubkey mk] = .ok v →
      (get_token_accounts_by_owner o w m).result =
        .ok ("Token accounts by owner: " ++ pyStr v)) ∧
    (∀ (o : Oracle) (m : String) (mk : List Nat) (v : PyVal),
      Pubkey.fromString m = .ok mk →
      o "get_token_supply" [.pubkey mk] = .ok v →
      (get_token_supply o m).result = .ok ("Token supply: " ++ pyStr v)) ∧
    (∀ (o : Oracle) (a : String) (l : Int) (pk : List Nat) (ln : Nat)
      (v : PyVal), Pubkey.fromString a = .ok pk → toU64 l = .ok ln →
      o "request_airdrop" [.pubkey pk, .nat ln] = .ok v →
      (request_airdrop o a l).result = .ok ("Airdrop request: " ++ pyStr v)) ∧
    (∀ (o : Oracle) (t : List Nat) (v : PyVal),
      o "send_raw_transaction" [.rawBytes t] = .ok v →
      (send_transaction o t).result = .ok ("Transaction sent: " ++ pyStr v)) ∧
    (∀ (o : Oracle) (v : PyVal), o "validator_exit" [] = .ok v →
      (validator_exit o).result =
        .ok ("Validator exit request: " ++ pyStr v)) ∧
    pyStr PyVal.noneVal = "None" := by
  refine ⟨?_, ?_, ?_, ?_, ?_, ?_, ?_, ?_, ?_, ?_, ?_, ?_, ?_, ?_, ?_, ?_, ?_,
    ?_, ?_, ?_, ?_, ?_, ?_, ?_, ?_, ?_, ?_, ?_, ?_, ?_, ?_, ?_, ?_, ?_, ?_,
    ?_, ?_, ?_, ?_, ?_, ?_, ?_, ?_, ?_, ?_, rfl⟩
  · intro o a pk v h1 hc
    simp [get_balance, withSession, remoteCall, h1, hc]
  · intro o h sb v h1 hc
    simp [get_transaction, withSession, remoteCall, h1, hc]
  · intro o s n v h1 hc
    simp [get_block, withSession, remoteCall, h1, hc]
  · intro o v hc
    simp [get_block_height, withSession, remoteCall, hc]
  · intro o n hc
    have hn : pyStr (.int (n : Int)) = toString n := rfl
    simp [get_block_height, withSession, remoteCall, hc, hn]
  · intro o s n v h1 hc
    simp [get_block_time, withSession, remoteCall, h1, hc]
  · intro o s en n en2 v h1 h2 hc
    simp [get_blocks, withSession, remoteCall, h1, h2, hc]
  · intro o v hc
    simp [get_cluster_nodes, withSession, remoteCall, hc]
  · intro o v hc
    simp [get_epoch_info, withSession, remoteCall, hc]
  · intro o v hc
    simp [get_epoch_schedule, withSession, remoteCall, hc]
  · intro o v hc
    simp [get_genesis_hash, withSession, remoteCall, hc]
  · intro o v hc
    simp [get_identity, withSession, remoteCall, hc]
  · intro o v hc
    simp [get_inflation_governor, withSession, remoteCall, hc]
  · intro o v hc
    simp [get_inflation_rate, withSession, remoteCall, hc]
  · intro o v hc
    simp [get_largest_accounts, withSession, remoteCall, hc]
  · intro o v hc
    simp [get_latest_blockhash, withSession, remoteCall, hc]
  · intro o s n v h1 hc
    simp [get_minimum_balance_for_rent_exemption, withSession, remoteCall,
      h1, hc]
  · intro o p pk v h1 hc
    simp [get_program_accounts, withSession, remoteCall, h1, hc]
  · intro o l l2 v h1 hc
    simp [get_recent_performance_samples, withSession, remoteCall, h1, hc]
  · intro o ss bs v h1 hc
    simp [get_signature_statuses, withSession, remoteCall, h1, hc]
  · intro o v hc
    simp [get_slot, withSession, remoteCall, hc]
  · intro o v hc
    simp [get_slot_leader, withSession, remoteCall, hc]
  · intro o v hc
    simp [get_supply, withSession, remoteCall, hc]
  · intro o t pk v h1 hc
    simp [get_token_account_balance, withSession, remoteCall, h1, hc]
  · intro o m pk v h1 hc
    simp [get_token_largest_accounts, withSession, remoteCall, h1, hc]
  · intro o v hc
    simp [get_transaction_count, withSession, remoteCall, hc]
  · intro o v hc
    simp [get_version, withSession, remoteCall, hc]
  · intro o v hc
    simp [get_vote_accounts, withSession, remoteCall, hc]
  · intro o v hc
    simp [is_connected, withSession, remoteCall, hc]
  · intro o s n v h1 hc
    simp [get_block_commitment, withSession, remoteCall, h1, hc]
  · intro o t c sb v h1 hc
    simp [confirm_transaction, withSession, remoteCall, h1, hc]
  · intro o p enc pk enc2 v h1 h2 hc
    simp [get_account_info, withSession, remoteCall, h1, h2, hc]
  · intro o f t l fb tb ln v h1 h2 h3 hc
    simp [get_fee_for_message, withSession, remoteCall, h1, h2, h3, hc]
  · intro o v hc
    simp [get_first_available_block, withSession, remoteCall, hc]
  · intro o ps e pks ep v h1 h2 hc
    simp [get_inflation_reward, withSession, remoteCall, h1, h2, hc]
  · intro o e ep v h1 hc
    simp [get_leader_schedule, withSession, remoteCall, h1, hc]
  · intro o v hc
    simp [get_minimum_ledger_slot, withSession, remoteCall, hc]
  · intro o ps enc pks enc2 v h1 h2 hc
    simp [get_multiple_accounts, withSession, remoteCall, h1, h2, hc]
  · intro o a b u l pk bb uu ll v h1 h2 h3 h4 hc
    simp [get_signatures_for_address, withSession, remoteCall, h1, h2, h3,
      h4, hc]
  · intro o d m dk mk v h1 h2 hc
    simp [get_token_accounts_by_delegate, withSession, remoteCall, h1, h2, hc]
  · intro o w m wk mk v h1 h2 hc
    simp [get_token_accounts_by_owner, withSession, remoteCall, h1, h2, hc]
  · intro o m mk v h1 hc
    simp [get_token_supply, withSession, remoteCall, h1, hc]
  · intro o a l pk ln v h1 h2 hc
    simp [request_airdrop, withSession, remoteCall, h1, h2, hc]
  · intro o t v hc
    simp [send_transaction, withSession, remoteCall, hc]
  · intro o v hc
    simp [validator_exit, withSession, remoteCall, hc]

theorem c5_witness :
    (get_balance oracleInt0 addrA).result =
      .ok ("Balance of " ++ addrA ++ ": " ++ pyStr (.int 0)) ∧
    (get_transaction oracleInt0 sigA).result =
      .ok ("Transaction: " ++ pyStr (.int 0)) ∧
    (get_block oracleInt0 5).result = .ok ("Block: " ++ pyStr (.int 0)) ∧
    (get_block_height oracleInt0).result =
      .ok ("Block height: " ++ pyStr (.int 0)) ∧
    (get_block_height oracleInt0).result =
      .ok ("Block height: " ++ toString (0 : Nat)) ∧
    (get_block_time oracleNonePayload 5).result =
      .ok ("Block time: " ++ pyStr .noneVal) ∧
    (get_blocks oracleInt0 100 Option.none).result =
      .ok ("Blocks: " ++ pyStr (.int 0)) ∧
    (get_cluster_nodes oracleInt0).result =
      .ok ("Cluster nodes: " ++ pyStr (.int 0)) ∧
    (get_epoch_info oracleInt0).result =
      .ok ("Epoch info: " ++ pyStr (.int 0)) ∧
    (get_epoch_schedule oracleInt0).result =
      .ok ("Epoch schedule: " ++ pyStr (.int 0)) ∧
    (get_genesis_hash oracleInt0).result =
      .ok ("Genesis hash: " ++ pyStr (.int 0)) ∧
    (get_identity oracleInt0).result =
      .ok ("Node identity: " ++ pyStr (.int 0)) ∧
    (get_inflation_governor oracleInt0).result =
      .ok ("Inflation governor: " ++ pyStr (.int 0)) ∧
    (get_inflation_rate oracleInt0).result =
      .ok ("Inflation rate: " ++ pyStr (.int 0)) ∧
    (get_largest_accounts oracleInt0).result =
      .ok ("Largest accounts: " ++ pyStr (.int 0)) ∧
    (get_latest_blockhash oracleInt0).result =
      .ok ("Latest blockhash: " ++ pyStr (.int 0)) ∧
    (get_minimum_balance_for_rent_exemption oracleInt0 5).result =
      .ok ("Minimum balance for rent exemption: " ++ pyStr (.int 0)) ∧
    (get_program_accounts oracleInt0 addrA).result =
      .ok ("Program accounts: " ++ pyStr (.int 0)) ∧
    (get_recent_performance_samples oracleInt0 Option.none).result =
      .ok ("Performance samples: " ++ pyStr (.int 0)) ∧
    (get_signature_statuses oracleInt0 [sigA]).result =
      .ok ("Signature statuses: " ++ pyStr (.int 0)) ∧
    (get_slot oracleInt0).result = .ok ("Current slot: " ++ pyStr (.int 0)) ∧
    (get_slot_leader oracleInt0).result =
      .ok ("Slot leader: " ++ pyStr (.int 0)) ∧
    (get_supply oracleInt0).result = .ok ("Supply info: " ++ pyStr (.int 0)) ∧
    (get_token_account_balance oracleInt0 addrA).result =
      .ok ("Token account balance: " ++ pyStr (.int 0)) ∧
    (get_token_largest_accounts oracleInt0 addrA).result =
      .ok ("Largest token accounts: " ++ pyStr (.int 0)) ∧
    (get_transaction_count oracleInt0).result =
      .ok ("Transaction count: " ++ pyStr (.int 0)) ∧
    (get_version oracleInt0).result =
      .ok ("Version info: " ++ pyStr (.int 0)) ∧
    (get_vote_accounts oracleInt0).result =
      .ok ("Vote accounts: " ++ pyStr (.int 0)) ∧
    (is_connected oracleInt0).result = .ok ("Connected: " ++ pyStr (.int 0)) ∧
    (get_block_commitment oracleInt0 5).result =
      .ok ("Block commitment: " ++ pyStr (.int 0)) ∧
    (confirm_transaction oracleInt0 sigA Option.none).result =
      .ok ("Transaction confirmation: " ++ pyStr (.int 0)) ∧
    (get_account_info oracleInt0 addrA "base64").result =
      .ok ("Account info: " ++ pyStr (.int 0)) ∧
    (get_fee_for_message oracleInt0 addrA addrB 5).result =
      .ok ("Message fee: " ++ pyStr (.int 0)) ∧
    (get_first_available_block oracleInt0).result =
      .ok ("First available block: " ++ pyStr (.int 0)) ∧
    (get_inflation_reward oracleInt0 [addrA] Option.none).result =
      .ok ("Inflation rewards: " ++ pyStr (.int 0)) ∧
    (get_leader_schedule oracleInt0 Option.none).result =
      .ok ("Leader schedule: " ++ pyStr (.int 0)) ∧
    (get_minimum_ledger_slot oracleInt0).result =
      .ok ("Minimum ledger slot: " ++ pyStr (.int 0)) ∧
    (get_multiple_accounts oracleInt0 [addrA] "base64").result =
      .ok ("Multiple accounts info: " ++ pyStr (.int 0)) ∧
    (get_signatures_for_address oracleInt0 addrA Option.none Option.none
        Option.none).result =
      .ok ("Signatures for address: " ++ pyStr (.int 0)) ∧
    (get_token_accounts_by_delegate oracleInt0 addrA addrB).result =
      .ok ("Token accounts by delegate: " ++ pyStr (.int 0)) ∧
    (get_token_accounts_by_owner oracleInt0 addrA addrB).result =
      .ok ("Token accounts by owner: " ++ pyStr (.int 0)) ∧
    (get_token_supply oracleInt0 addrA).result =
      .ok ("Token supply: " ++ pyStr (.int 0)) ∧
    (request_airdrop oracleInt0 addrA 5).result =
      .ok ("Airdrop request: " ++ pyStr (.int 0)) ∧
    (send_transaction oracleInt0 [1, 2, 3]).result =
      .ok ("Transaction sent: " ++ pyStr (.int 0)) ∧
    (validator_exit oracleInt0).result =
      .ok ("Validator exit request: " ++ pyStr (.int 0)) := by
  obtain ⟨a1, a2, a3, a4, a5, a6, a7, a8, a9, a10, a11, a12, a13, a14, a15,
    a16, a17, a18, a19, a20, a21, a22, a23, a24, a25, a26, a27, a28, a29,
    a30, a31, a32, a33, a34, a35, a36, a37, a38, a39, a40, a41, a42, a43,
    a44, a45, -⟩ := c5_theorem
  have hpkA := pubkey_addrA
  have hpkB : Pubkey.fromString addrB = .ok (List.replicate 31 0 ++ [1]) := rfl
  have hsg : Signature.fromString sigA = .ok (List.replicate 64 0) := rfl
  have hu5 : toU64 5 = .ok 5 := rfl
  have hu100 : toU64 100 = .ok 100 := rfl
  have hmapA : mapDecode Pubkey.fromString [addrA] =
      .ok [List.replicate 32 0] := rfl
  have hmapS : mapDecode Signature.fromString [sigA] =
      .ok [List.replicate 64 0] := rfl
  exact ⟨a1 oracleInt0 addrA _ _ hpkA rfl,
    a2 oracleInt0 sigA _ _ hsg rfl,
    a3 oracleInt0 5 5 _ hu5 rfl,
    a4 oracleInt0 _ rfl,
    a5 oracleInt0 0 rfl,
    a6 oracleNonePayload 5 5 _ hu5 rfl,
    a7 oracleInt0 100 Option.none 100 Option.none _ hu100 rfl rfl,
    a8 oracleInt0 _ rfl,
    a9 oracleInt0 _ rfl,
    a10 oracleInt0 _ rfl,
    a11 oracleInt0 _ rfl,
    a12 oracleInt0 _ rfl,
    a13 oracleInt0 _ rfl,
    a14 oracleInt0 _ rfl,
    a15 oracleInt0 _ rfl,
    a16 oracleInt0 _ rfl,
    a17 oracleInt0 5 5 _ hu5 rfl,
    a18 oracleInt0 addrA _ _ hpkA rfl,
    a19 oracleInt0 Option.none Option.none _ rfl rfl,
    a20 oracleInt0 [sigA] _ _ hmapS rfl,
    a21 oracleInt0 _ rfl,
    a22 oracleInt0 _ rfl,
    a23 oracleInt0 _ rfl,
    a24 oracleInt0 addrA _ _ hpkA rfl,
    a25 oracleInt0 addrA _ _ hpkA rfl,
    a26 oracleInt0 _ rfl,
    a27 oracleInt0 _ rfl,
    a28 oracleInt0 _ rfl,
    a29 oracleInt0 _ rfl,
    a30 oracleInt0 5 5 _ hu5 rfl,
    a31 oracleInt0 sigA Option.none _ _ hsg rfl,
    a32 oracleInt0 addrA "base64" _ "base64" _ hpkA rfl rfl,
    a33 oracleInt0 addrA addrB 5 _ _ 5 _ hpkA hpkB hu5 rfl,
    a34 oracleInt0 _ rfl,
    a35 oracleInt0 [addrA] Option.none _ Option.none _ hmapA rfl rfl,
    a36 oracleInt0 Option.none Option.none _ rfl rfl,
    a37 oracleInt0 _ rfl,
    a38 oracleInt0 [addrA] "base64" _ "base64" _ hmapA rfl rfl,
    a39 oracleInt0 addrA Option.none Option.none Option.none _ Option.none
      Option.none Option.none _ hpkA rfl rfl rfl rfl,
    a40 oracleInt0 addrA addrB _ _ _ hpkA hpkB rfl,
    a41 oracleInt0 addrA addrB _ _ _ hpkA hpkB rfl,
    a42 oracleInt0 addrA _ _ hpkA rfl,
    a43 oracleInt0 addrA 5 _ 5 _ hpkA hu5 rfl,
    a44 oracleInt0 [1, 2, 3] _ rfl,
    a45 oracleInt0 _ rfl⟩

/-- C6 is false as stated: the claim requires every encoding value
outside base58, base64 and jsonParsed never to be forwarded to the
remote node, but invoking get_account_info with the encoding
base64+zstd — a value outside that enumeration — performs the remote
call, forwarding that encoding. -/
theorem c6_counterexample :
    (get_account_info oracleInt0 addrA "base64+zstd").trace =
      [.sessionAcquire,
        .netCall "get_account_info"
          [.pubkey (List.replicate 32 0), .str "base64+zstd"],
        .sessionRelease] :=
  rfl

/-- C6 (amended): for get_account_info and get_multiple_accounts, an
encoding value outside the table base58, base64, base64+zstd,
jsonParsed is rejected locally with a key-lookup error, before any
network call, while base64+zstd — although outside the enumeration the
claim states — is accepted and forwarded to the remote node. -/
theorem c6_theorem :
    (∀ (o : Oracle) (p e : String) (pk : List Nat),
      Pubkey.fromString p = .ok pk →
      e ≠ "base58" → e ≠ "base64" → e ≠ "base64+zstd" → e ≠ "jsonParsed" →
      (get_account_info o p e).result = .error (.keyError e) ∧
      (get_account_info o p e).trace = [.sessionAcquire, .sessionRelease]) ∧
    (∀ (o : Oracle) (p e : String) (pk : List Nat),
      Pubkey.fromString p = .ok pk →
      e ≠ "base58" → e ≠ "base64" → e ≠ "base64+zstd" → e ≠ "jsonParsed" →
      (get_multiple_accounts o [p] e).result = .error (.keyError e) ∧
      (get_multiple_accounts o [p] e).trace =
        [.sessionAcquire, .sessionRelease]) ∧
    (∀ (o : Oracle) (p : String) (pk : List Nat),
      Pubkey.fromString p = .ok pk →
      (get_account_info o p "base64+zstd").trace =
        [.sessionAcquire,
          .netCall "get_account_info" [.pubkey pk, .str "base64+zstd"],
          .sessionRelease]) := by
  refine ⟨?_, ?_, ?_⟩
  · intro o p e pk hpk h1 h2 h3 h4
    have he : accountEncodingLookup e = .error (.keyError e) := by
      simp [accountEncodingLookup, h1, h2, h3, h4]
    constructor <;>
      simp [get_account_info, hpk, he, withSession, failBody]
  · intro o p e pk hpk h1 h2 h3 h4
    have he : accountEncodingLookup e = .error (.keyError e) := by
      simp [accountEncodingLookup, h1, h2, h3, h4]
    constructor <;>
      simp [get_multiple_accounts, mapDecode, hpk, he, withSession, failBody]
  · intro o p pk hpk
    simp [get_account_info, hpk, accountEncodingLookup, withSession, remoteCall]

theorem c6_witness :
    ((get_account_info oracleInt0 addrA "hex").result = .error (.keyError "hex") ∧
      (get_account_info oracleInt0 addrA "hex").trace =
        [.sessionAcquire, .sessionRelease]) ∧
    ((get_multiple_accounts oracleInt0 [addrA] "hex").result =
        .error (.keyError "hex") ∧
      (get_multiple_accounts oracleInt0 [addrA] "hex").trace =
        [.sessionAcquire, .sessionRelease]) ∧
    (get_account_info oracleInt0 addrA "base64+zstd").trace =
      [.sessionAcquire,
        .netCall "get_account_info"
          [.pubkey (List.replicate 32 0), .str "base64+zstd"],
        .sessionRelease] := by
  exact ⟨c6_theorem.1 oracleInt0 addrA "hex" (List.replicate 32 0) pubkey_addrA
      (by decide) (by decide) (by decide) (by decide),
    c6_theorem.2.1 oracleInt0 addrA "hex" (List.replicate 32 0) pubkey_addrA
      (by decide) (by decide) (by decide) (by decide),
    c6_theorem.2.2 oracleInt0 addrA (List.replicate 32 0) pubkey_addrA⟩

/-- C7 is false as stated: the claim requires the invocation with the
list of the strings sigA and sigB to convert both entries to Signature
wire values and issue one remote call of length two, but the string
sigA decodes to fewer than 64 raw bytes, so the invocation fails with a
decode error and performs no remote call at all. -/
theorem c7_counterexample :
    (get_signature_statuses oracleInt0 ["sigA", "sigB"]).result =
      .error (.decodeError "sigA") ∧
    (get_signature_statuses oracleInt0 ["sigA", "sigB"]).trace =
      [.sessionAcquire, .sessionRelease] :=
  ⟨rfl, rfl⟩

/-- C7 (amended): for every input list whose entries all decode to
64-byte signatures, get_signature_statuses converts the entries to
Signature wire values and issues exactly one remote call carrying a
list of the same length as the input, in the same order; the literal
strings sigA and sigB do not decode, so such an invocation instead
fails locally with a decode error. -/
theorem c7_theorem :
    ∀ (o : Oracle) (sigs : List String) (bs : List (List Nat)),
      mapDecode Signature.fromString sigs = .ok bs →
      (get_signature_statuses o sigs).trace =
        [.sessionAcquire,
          .netCall "get_signature_statuses" [.sigList bs],
          .sessionRelease] ∧
      bs.length = sigs.length ∧
      ∀ i (h1 : i < sigs.length) (h2 : i < bs.length),
        Signature.fromString sigs[i] = .ok bs[i] := by
  intro o sigs bs h
  obtain ⟨hlen, hget⟩ := mapDecode_ok Signature.fromString sigs bs h
  refine ⟨?_, hlen, hget⟩
  simp [get_signature_statuses, h, withSession, remoteCall]

theorem c7_witness :
    (get_signature_statuses oracleInt0 [sigA, sigB]).trace =
      [.sessionAcquire,
        .netCall "get_signature_statuses"
          [.sigList [List.replicate 64 0, List.replicate 63 0 ++ [1]]],
        .sessionRelease] ∧
    ([List.replicate 64 0, List.replicate 63 0 ++ [1]] :
        List (List Nat)).length = ([sigA, sigB] : List String).length ∧
    Signature.fromString sigA = .ok (List.replicate 64 0) ∧
    Signature.fromString sigB = .ok (List.replicate 63 0 ++ [1]) := by
  obtain ⟨ht, hl, hg⟩ := c7_theorem oracleInt0 [sigA, sigB]
    [List.replicate 64 0, List.replicate 63 0 ++ [1]] rfl
  exact ⟨ht, hl, hg 0 (by norm_num) (by norm_num), hg 1 (by norm_num) (by norm_num)⟩

/-- C8 is false as stated: the claim requires a negative slot to fail
with a validation error identifying the parameter name and requires no
local upper bound, but get_block with slot -1 raises an overflow error
that carries only the value, with no parameter name, and get_block with
slot 2 to the 64 — in range for the remote node according to no local
bound — is also rejected locally, with no network call in either
trace. -/
theorem c8_counterexample :
    (get_block oracleInt0 (-1)).result = .error (.overflowError (-1)) ∧
    (get_block oracleInt0 (-1)).trace = [.sessionAcquire, .sessionRelease] ∧
    (get_block oracleInt0 (2 ^ 64)).result = .error (.overflowError (2 ^ 64)) ∧
    (get_block oracleInt0 (2 ^ 64)).trace =
      [.sessionAcquire, .sessionRelease] :=
  ⟨rfl, rfl, rfl, rfl⟩

/-- C8 (amended): for every operation that declares a SlotNumber or
Epoch parameter — get_block, get_block_time, get_blocks (start_slot and
end_slot), get_block_commitment, get_inflation_reward (epoch) and
get_leader_schedule (epoch) — a supplied value that is negative or at
least 2 to the 64 fails locally, before any network call, with an
overflow error that carries the value but no parameter name — so the
conversion both rejects negative values and imposes the u64 upper bound
locally — while a value inside the u64 range is forwarded unchanged in
the single remote call. -/
theorem c8_theorem :
    (∀ (o : Oracle) (slot : Int), slot < 0 ∨ 2 ^ 64 ≤ slot →
      (get_block o slot).result = .error (.overflowError slot) ∧
      (get_block o slot).trace = [.sessionAcquire, .sessionRelease]) ∧
    (∀ (o : Oracle) (slot : Int), slot < 0 ∨ 2 ^ 64 ≤ slot →
      (get_block_time o slot).result = .error (.overflowError slot) ∧
      (get_block_time o slot).trace = [.sessionAcquire, .sessionRelease]) ∧
    (∀ (o : Oracle) (s : Int) (en : Option Int), s < 0 ∨ 2 ^ 64 ≤ s →
      (get_blocks o s en).result = .error (.overflowError s) ∧
      (get_blocks o s en).trace = [.sessionAcquire, .sessionRelease]) ∧
    (∀ (o : Oracle) (s en : Int), 0 ≤ s → s < 2 ^ 64 →
      en < 0 ∨ 2 ^ 64 ≤ en →
      (get_blocks o s (some en)).result = .error (.overflowError en) ∧
      (get_blocks o s (some en)).trace =
        [.sessionAcquire, .sessionRelease]) ∧
    (∀ (o : Oracle) (slot : Int), slot < 0 ∨ 2 ^ 64 ≤ slot →
      (get_block_commitment o slot).result = .error (.overflowError slot) ∧
      (get_block_commitment o slot).trace =
        [.sessionAcquire, .sessionRelease]) ∧
    (∀ (o : Oracle) (ps : List String) (pks : List (List Nat)) (ep : Int),
      mapDecode Pubkey.fromString ps = .ok pks → ep < 0 ∨ 2 ^ 64 ≤ ep →
      (get_inflation_reward o ps (some ep)).result =
        .error (.overflowError ep) ∧
      (get_inflation_reward o ps (some ep)).trace =
        [.sessionAcquire, .sessionRelease]) ∧
    (∀ (o : Oracle) (ep : Int), ep < 0 ∨ 2 ^ 64 ≤ ep →
      (get_leader_schedule o (some ep)).result = .error (.overflowError ep) ∧
      (get_leader_schedule o (some ep)).trace =
        [.sessionAcquire, .sessionRelease]) ∧
    (∀ (o : Oracle) (slot : Int), 0 ≤ slot → slot < 2 ^ 64 →
      (get_block o slot).trace =
        [.sessionAcquire, .netCall "get_block" [.nat slot.toNat],
          .sessionRelease]) ∧
    (∀ (o : Oracle) (slot : Int), 0 ≤ slot → slot < 2 ^ 64 →
      (get_block_time o slot).trace =
        [.sessionAcquire, .netCall "get_block_time" [.nat slot.toNat],
          .sessionRelease]) ∧
    (∀ (o : Oracle) (s en : Int), 0 ≤ s → s < 2 ^ 64 → 0 ≤ en →
      en < 2 ^ 64 →
      (get_blocks o s (some en)).trace =
        [.sessionAcquire,
          .netCall "get_blocks" [.nat s.toNat, .optNat (some en.toNat)],
          .sessionRelease]) ∧
    (∀ (o : Oracle) (slot : Int), 0 ≤ slot → slot < 2 ^ 64 →
      (get_block_commitment o slot).trace =
        [.sessionAcquire, .netCall "get_block_commitment" [.nat slot.toNat],
          .sessionRelease]) ∧
    (∀ (o : Oracle) (ps : List String) (pks : List (List Nat)) (ep : Int),
      mapDecode Pubkey.fromString ps = .ok pks → 0 ≤ ep → ep < 2 ^ 64 →
      (get_inflation_reward o ps (some ep)).trace =
        [.sessionAcquire,
          .netCall "get_inflation_reward"
            [.pubkeyList pks, .optNat (some ep.toNat)],
          .sessionRelease]) ∧
    (∀ (o : Oracle) (ep : Int), 0 ≤ ep → ep < 2 ^ 64 →
      (get_leader_schedule o (some ep)).trace =
        [.sessionAcquire,
          .netCall "get_leader_schedule" [.optNat (some ep.toNat)],
          .sessionRelease]) := by
  refine ⟨?_, ?_, ?_, ?_, ?_, ?_, ?_, ?_, ?_, ?_, ?_, ?_, ?_⟩
  · intro o slot h
    have hs : toU64 slot = .error (.overflowError slot) := by
      unfold toU64
      rw [if_neg (by omega)]
    constructor <;> simp [get_block, hs, withSession, failBody]
  · intro o slot h
    have hs : toU64 slot = .error (.overflowError slot) := by
      unfold toU64
      rw [if_neg (by omega)]
    constructor <;> simp [get_block_time, hs, withSession, failBody]
  · intro o s en h
    have hs : toU64 s = .error (.overflowError s) := by
      unfold toU64
      rw [if_neg (by omega)]
    constructor <;> simp [get_blocks, hs, withSession, failBody]
  · intro o s en h0 h1 h
    have hs : toU64 s = .ok s.toNat := by unfold toU64; rw [if_pos ⟨h0, h1⟩]
    have ht : toU64 en = .error (.overflowError en) := by
      unfold toU64
      rw [if_neg (by omega)]
    have he : optToU64 (some en) = .error (.overflowError en) := by
      simp [optToU64, ht, Except.map]
    constructor <;> simp [get_blocks, hs, he, withSession, failBody]
  · intro o slot h
    have hs : toU64 slot = .error (.overflowError slot) := by
      unfold toU64
      rw [if_neg (by omega)]
    constructor <;> simp [get_block_commitment, hs, withSession, failBody]
  · intro o ps pks ep hok h
    have ht : toU64 ep = .error (.overflowError ep) := by
      unfold toU64
      rw [if_neg (by omega)]
    have he : optToU64 (some ep) = .error (.overflowError ep) := by
      simp [optToU64, ht, Except.map]
    constructor <;> simp [get_inflation_reward, hok, he, withSession, failBody]
  · intro o ep h
    have ht : toU64 ep = .error (.overflowError ep) := by
      unfold toU64
      rw [if_neg (by omega)]
    have he : optToU64 (some ep) = .error (.overflowError ep) := by
      simp [optToU64, ht, Except.map]
    constructor <;> simp [get_leader_schedule, he, withSession, failBody]
  · intro o slot h0 h1
    have hs : toU64 slot = .ok slot.toNat := by
      unfold toU64
      rw [if_pos ⟨h0, h1⟩]
    simp [get_block, hs, withSession, remoteCall]
  · intro o slot h0 h1
    have hs : toU64 slot = .ok slot.toNat := by
      unfold toU64
      rw [if_pos ⟨h0, h1⟩]
    simp [get_block_time, hs, withSession, remoteCall]
  · intro o s en h0 h1 h2 h3
    have hs : toU64 s = .ok s.toNat := by unfold toU64; rw [if_pos ⟨h0, h1⟩]
    have ht : toU64 en = .ok en.toNat := by unfold toU64; rw [if_pos ⟨h2, h3⟩]
    have he : optToU64 (some en) = .ok (some en.toNat) := by
      simp [optToU64, ht, Except.map]
    simp [get_blocks, hs, he, withSession, remoteCall]
  · intro o slot h0 h1
    have hs : toU64 slot = .ok slot.toNat := by
      unfold toU64
      rw [if_pos ⟨h0, h1⟩]
    simp [get_block_commitment, hs, withSession, remoteCall]
  · intro o ps pks ep hok h0 h1
    have ht : toU64 ep = .ok ep.toNat := by unfold toU64; rw [if_pos ⟨h0, h1⟩]
    have he : optToU64 (some ep) = .ok (some ep.toNat) := by
      simp [optToU64, ht, Except.map]
    simp [get_inflation_reward, hok, he, withSession, remoteCall]
  · intro o ep h0 h1
    have ht : toU64 ep = .ok ep.toNat := by unfold toU64; rw [if_pos ⟨h0, h1⟩]
    have he : optToU64 (some ep) = .ok (some ep.toNat) := by
      simp [optToU64, ht, Except.map]
    simp [get_leader_schedule, he, withSession, remoteCall]

theorem c8_witness :
    ((get_block oracleInt0 (-1)).result = .error (.overflowError (-1)) ∧
      (get_block oracleInt0 (-1)).trace = [.sessionAcquire, .sessionRelease]) ∧
    ((get_block_time oracleInt0 (-1)).result = .error (.overflowError (-1)) ∧
      (get_block_time oracleInt0 (-1)).trace =
        [.sessionAcquire, .sessionRelease]) ∧
    ((get_blocks oracleInt0 (-1) Option.none).result =
        .error (.overflowError (-1)) ∧
      (get_blocks oracleInt0 (-1) Option.none).trace =
        [.sessionAcquire, .sessionRelease]) ∧
    ((get_blocks oracleInt0 5 (some (-1))).result =
        .error (.overflowError (-1)) ∧
      (get_blocks oracleInt0 5 (some (-1))).trace =
        [.sessionAcquire, .sessionRelease]) ∧
    ((get_block_commitment oracleInt0 (-1)).result =
        .error (.overflowError (-1)) ∧
      (get_block_commitment oracleInt0 (-1)).trace =
        [.sessionAcquire, .sessionRelease]) ∧
    ((get_inflation_reward oracleInt0 [addrA] (some (-1))).result =
        .error (.overflowError (-1)) ∧
      (get_inflation_reward oracleInt0 [addrA] (some (-1))).trace =
        [.sessionAcquire, .sessionRelease]) ∧
    ((get_leader_schedule oracleInt0 (some (-1))).result =
        .error (.overflowError (-1)) ∧
      (get_leader_schedule oracleInt0 (some (-1))).trace =
        [.sessionAcquire, .sessionRelease]) ∧
    (get_block oracleInt0 5).trace =
      [.sessionAcquire, .netCall "get_block" [.nat 5], .sessionRelease] ∧
    (get_block_time oracleInt0 5).trace =
      [.sessionAcquire, .netCall "get_block_time" [.nat 5],
        .sessionRelease] ∧
    (get_blocks oracleInt0 5 (some 7)).trace =
      [.sessionAcquire, .netCall "get_blocks" [.nat 5, .optNat (some 7)],
        .sessionRelease] ∧
    (get_block_commitment oracleInt0 5).trace =
      [.sessionAcquire, .netCall "get_block_commitment" [.nat 5],
        .sessionRelease] ∧
    (get_inflation_reward oracleInt0 [addrA] (some 5)).trace =
      [.sessionAcquire,
        .netCall "get_inflation_reward"
          [.pubkeyList [List.replicate 32 0], .optNat (some 5)],
        .sessionRelease] ∧
    (get_leader_schedule oracleInt0 (some 5)).trace =
      [.sessionAcquire, .netCall "get_leader_schedule" [.optNat (some 5)],
        .sessionRelease] := by
  have hmapA : mapDecode Pubkey.fromString [addrA] =
      .ok [List.replicate 32 0] := rfl
  exact ⟨c8_theorem.1 oracleInt0 (-1) (by norm_num),
    c8_theorem.2.1 oracleInt0 (-1) (by norm_num),
    c8_theorem.2.2.1 oracleInt0 (-1) Option.none (by norm_num),
    c8_theorem.2.2.2.1 oracleInt0 5 (-1) (by norm_num) (by norm_num)
      (by norm_num),
    c8_theorem.2.2.2.2.1 oracleInt0 (-1) (by norm_num),
    c8_theorem.2.2.2.2.2.1 oracleInt0 [addrA] [List.replicate 32 0] (-1)
      hmapA (by norm_num),
    c8_theorem.2.2.2.2.2.2.1 oracleInt0 (-1) (by norm_num),
    c8_theorem.2.2.2.2.2.2.2.1 oracleInt0 5 (by norm_num) (by norm_num),
    c8_theorem.2.2.2.2.2.2.2.2.1 oracleInt0 5 (by norm_num) (by norm_num),
    c8_theorem.2.2.2.2.2.2.2.2.2.1 oracleInt0 5 7 (by norm_num) (by norm_num)
      (by norm_num) (by norm_num),
    c8_theorem.2.2.2.2.2.2.2.2.2.2.1 oracleInt0 5 (by norm_num) (by norm_num),
    c8_theorem.2.2.2.2.2.2.2.2.2.2.2.1 oracleInt0 [addrA]
      [List.replicate 32 0] 5 hmapA (by norm_num) (by norm_num),
    c8_theorem.2.2.2.2.2.2.2.2.2.2.2.2 oracleInt0 5 (by norm_num)
      (by norm_num)⟩

/-- C9: get_fee_for_message does not forward its raw arguments; it
builds a message holding exactly one system-program transfer
instruction — funder from_pubkey as writable signer, recipient
to_pubkey writable, data the transfer tag followed by the
little-endian lamports — sends exactly that message in its single
remote call, and on success returns the fee the node reports for that
constructed message. -/
theorem c9_theorem :
    ∀ (o : Oracle) (f t : String) (lam : Int) (fb tb : List Nat) (ln : Nat),
      Pubkey.fromString f = .ok fb →
      Pubkey.fromString t = .ok tb →
      toU64 lam = .ok ln →
      (get_fee_for_message o f t lam).trace =
        [.sessionAcquire,
          .netCall "get_fee_for_message" [.msg ⟨[transferInstruction fb tb ln]⟩],
          .sessionRelease] ∧
      (SolMessage.mk [transferInstruction fb tb ln]).instructions.length = 1 ∧
      transferInstruction fb tb ln =
        { programId := systemProgramId
          accounts := [⟨fb, true, true⟩, ⟨tb, false, true⟩]
          data := u32le 2 ++ u64le ln } ∧
      ∀ v, o "get_fee_for_message" [.msg ⟨[transferInstruction fb tb ln]⟩] = .ok v →
        (get_fee_for_message o f t lam).result =
          .ok ("Message fee: " ++ pyStr v) := by
  intro o f t lam fb tb ln hf ht hl
  refine ⟨?_, rfl, rfl, ?_⟩
  · simp [get_fee_for_message, hf, ht, hl, withSession, remoteCall]
  · intro v hcall
    simp [get_fee_for_message, hf, ht, hl, withSession, remoteCall, hcall]

theorem c9_witness :
    (get_fee_for_message oracleInt0 addrA addrB 5).trace =
      [.sessionAcquire,
        .netCall "get_fee_for_message"
          [.msg ⟨[transferInstruction (List.replicate 32 0)
              (List.replicate 31 0 ++ [1]) 5]⟩],
        .sessionRelease] ∧
    (SolMessage.mk [transferInstruction (List.replicate 32 0)
        (List.replicate 31 0 ++ [1]) 5]).instructions.length = 1 ∧
    transferInstruction (List.replicate 32 0) (List.replicate 31 0 ++ [1]) 5 =
      { programId := systemProgramId
        accounts := [⟨List.replicate 32 0, true, true⟩,
          ⟨List.replicate 31 0 ++ [1], false, true⟩]
        data := u32le 2 ++ u64le 5 } ∧
    (get_fee_for_message oracleInt0 addrA addrB 5).result =
      .ok ("Message fee: " ++ pyStr (.int 0)) := by
  obtain ⟨ht, hone, hinstr, hres⟩ := c9_theorem oracleInt0 addrA addrB 5
    (List.replicate 32 0) (List.replicate 31 0 ++ [1]) 5
    pubkey_addrA rfl rfl
  exact ⟨ht, hone, hinstr, hres (.int 0) rfl⟩

end McpSol
